import Mathlib

/-!
Shallow embedding of mpv's `common/encode_lavc.c` (the encode-session
orchestrator around libavformat), together with proofs about the claims of
its specification.

Modelling conventions:
* C strings are `List Char` (no interior NUL bytes are relevant here).
* `AVDictionary` is an association list of key/value strings, with the
  subset of `av_dict_set` semantics the source uses (plain set,
  `AV_DICT_APPEND`, and delete-on-NULL).
* The session struct `encode_lavc_context` becomes the structure `EncCtx`;
  pointers to external library objects become presence booleans plus the
  capability data the source reads from them.
* Results of external fallible calls (`avio_open`, `avformat_write_header`,
  `stream_open`, `av_interleaved_write_frame`, ...) are supplied by small
  environment structures, one per operation.
* Calls into external I/O are additionally counted in the state
  (`avio_open_calls`, `write_header_calls`, `trailer_calls`) so that
  "performs no additional I/O" is expressible as state equality.
* `double` fields that the claims exercise only on exactly representable
  values (`audioseconds`, fps hints, timestamps) are modelled as `ℚ`.
-/

set_option maxRecDepth 20000

namespace EncodeLavc

/-- C strings, modelled as lists of characters. -/
abbrev CStr := List Char

/-- Convert a Lean string literal to the `CStr` model. -/
def cs (s : String) : CStr := s.data

/-- `AVRational`: a numerator/denominator pair (not reduced). -/
structure Rat2 where
  num : Int
  den : Int
deriving DecidableEq, Repr

/-- `enum AVMediaType`, restricted to the constants the source uses.
`unknown` stands for `AVMEDIA_TYPE_UNKNOWN` (placeholder streams) and is
also used for the `default:` source branches. -/
inductive MediaType where
  | video
  | audio
  | unknown
deriving DecidableEq, Repr

/-- `AVDictionary`: an association list of key/value C strings. -/
abbrev AVDict := List (CStr × CStr)

/-- `av_dict_get(d, key, NULL, 0)`: first entry with exactly this key. -/
def av_dict_get (d : AVDict) (key : CStr) : Option CStr :=
  (d.find? (fun kv => decide (kv.1 = key))).map (fun kv => kv.2)

/-- `av_dict_set`: the subset of semantics the source relies on.
A `none` value deletes the key; with the append flag the new value is
concatenated onto an existing entry's value; otherwise the entry is
replaced (or inserted at the end). -/
def av_dict_set (d : AVDict) (key : CStr) (value : Option CStr)
    (append : Bool) : AVDict :=
  match value with
  | none => d.filter (fun kv => !(decide (kv.1 = key)))
  | some v =>
    if (d.find? (fun kv => decide (kv.1 = key))).isSome then
      d.map (fun kv =>
        if kv.1 = key then (kv.1, if append then kv.2 ++ v else v) else kv)
    else d ++ [(key, v)]

/-- Is this one of the sign characters the source special-cases? -/
def isSign (c : Char) : Bool := c = '+' || c = '-'

/-- The `"qscale"` value rewrite of `set_to_avdictionary`:
`snprintf(valuebuf, 1024, "%.1s(%s)*QP2LAMBDA", sign?, rest)`.
The result is truncated to the 1023 characters that fit in the buffer. -/
def qscale_rewrite (val : CStr) : CStr :=
  let signed : Bool := match val with
    | c :: _ => isSign c
    | [] => false
  let sign : CStr := if signed then val.take 1 else []
  let body : CStr := if signed then val.tail else val
  (sign ++ ('(' :: body) ++ cs ")*QP2LAMBDA").take 1023

/-- `set_to_avdictionary(ctx, dictp, key, val)`.  Returns the C result
(1 mapped to `true`, 0 to `false`) and the updated dictionary.  A `none`
key means the combined `"key=value"` form: the string is split at the
first `=`; a missing `=`, or a key part that does not fit the 1024-byte
key buffer, is a warned no-op. -/
def set_to_avdictionary (d : AVDict) (key : Option CStr) (val : CStr) :
    Bool × AVDict :=
  let kv : Option (CStr × CStr) :=
    match key with
    | some k => some (k, val)
    | none =>
      match val.findIdx? (fun c => decide (c = '=')) with
      | none => none
      | some i => if 1024 ≤ i then none else some (val.take i, val.drop (i + 1))
  match kv with
  | none => (false, d)
  | some (k, v) =>
    let kv2 : CStr × CStr :=
      if k = cs "qscale" then (cs "global_quality", qscale_rewrite v) else (k, v)
    let k2 := kv2.1
    let v2 := kv2.2
    let appendFlag : Bool := match v2 with
      | c :: _ => isSign c
      | [] => false
    (true, av_dict_set d k2 (if v2 = [] then none else some v2) appendFlag)

/-- `strcspn(value, "+-")`: length of the longest sign-free initial
segment. -/
def strcspn_pm : CStr → Nat
  | [] => 0
  | c :: rest => if isSign c then 0 else strcspn_pm rest + 1

/-- Loop body of `value_has_flag`.  `state` tracks the most recent sign
seen, `ret` the verdict for the flag so far (a later occurrence of the
flag overwrites the verdict with the sign in force there).  The loop
consumes at least one character per iteration, so `value.length` is
enough fuel; the fuel argument only makes the C `while` loop structurally
recursive and is never exhausted while characters remain. -/
def value_has_flag_go (flag : CStr) : Bool → Bool → CStr → Nat → Bool
  | _, ret, _, 0 => ret
  | state, ret, value, fuel + 1 =>
    match value with
    | [] => ret
    | c :: rest =>
      if isSign c then
        value_has_flag_go flag (decide (c = '+')) ret rest fuel
      else
        let l := strcspn_pm (c :: rest)
        let ret2 := if l = flag.length ∧ (c :: rest).take l = flag
          then state else ret
        value_has_flag_go flag state ret2 (rest.drop (l - 1)) fuel

/-- `value_has_flag(value, flag)` from the source. -/
def value_has_flag (value flag : CStr) : Bool :=
  value_has_flag_go flag true false value value.length

/-- `AV_CODEC_FLAG_PASS1` (`1 << 9`). -/
def AV_CODEC_FLAG_PASS1 : Nat := 2 ^ 9

/-- `AV_CODEC_FLAG_PASS2` (`1 << 10`). -/
def AV_CODEC_FLAG_PASS2 : Nat := 2 ^ 10

/-- `FF_COMPLIANCE_EXPERIMENTAL`. -/
def FF_COMPLIANCE_EXPERIMENTAL : Int := -2

/-- `f &= ~b` on flag words: remove the bits of `b` from `f`. -/
def clearFlag (f b : Nat) : Nat := f - Nat.land f b

/-- The fields of `AVCodecContext` the source reads or writes. -/
structure CodecCtx where
  codec_type : MediaType
  time_base : Rat2
  flags : Nat
  stats_in : Option CStr
  stats_out : Option CStr
  strict_std_compliance : Int
  colorspace : Int
  color_range : Int
deriving DecidableEq, Repr

/-- `avcodec_alloc_context3(codec)`: a fresh context for an encoder of the
given media type. -/
def avcodec_alloc_context3 (mt : MediaType) : CodecCtx where
  codec_type := mt
  time_base := ⟨0, 1⟩
  flags := 0
  stats_in := none
  stats_out := none
  strict_std_compliance := 0
  colorspace := 0
  color_range := 0

/-- The fields of a container-level `AVStream` the source touches:
its index, its time base and its `codecpar->codec_type`. -/
structure StreamS where
  index : Nat
  time_base : Rat2
  codec_type : MediaType
deriving DecidableEq, Repr

/-- The fields of `AVPacket` the source reads. -/
structure Packet where
  stream_index : Nat
  size : Int
  duration : Int
deriving DecidableEq, Repr

/-- The fields of `struct encode_opts` the modelled operations read.
Option strings that the source only tests for being non-NULL
(`vcodec`, `acodec`) become booleans. -/
structure EncOptions where
  fps : ℚ
  autofps : Bool
  vcodec : Bool
  acodec : Bool
  video_first : Bool
  audio_first : Bool
  fopts : List CStr
  vopts : List CStr
  aopts : List CStr
deriving DecidableEq, Repr

/-- The encode session, `struct encode_lavc_context`.

External library objects are replaced by the data the source reads from
them: `has_vc`/`has_ac` for the resolved encoder pointers, the format's
default-codec and flag bits, and the video encoder's supported frame-rate
list.  `avc`/`pb_open` model the allocation state of the muxer context and
its I/O handle.  The two-pass byte buffers hold the text written so far
(`some` = channel open).  The three `*_calls` counters record external
I/O attempts so that "no additional I/O" is state equality. -/
structure EncCtx where
  options : EncOptions
  has_vc : Bool
  has_ac : Bool
  vc_supported_framerates : Option (List Rat2)
  vc_experimental : Bool
  ac_experimental : Bool
  fmt_video_codec_none : Bool
  fmt_audio_codec_none : Bool
  fmt_nofile : Bool
  fmt_globalheader : Bool
  avc : Bool
  pb_open : Bool
  streams : List StreamS
  avc_metadata : AVDict
  vst : Option Nat
  ast : Option Nat
  vcc : Option CodecCtx
  acc : Option CodecCtx
  foptions : AVDict
  voptions : AVDict
  aoptions : AVDict
  twopass_bytebuffer_v : Option CStr
  twopass_bytebuffer_a : Option CStr
  header_written : Int
  failed : Bool
  finished : Bool
  vbytes : Int
  abytes : Int
  frames : Int
  audioseconds : ℚ
  t0 : ℚ
  timebase : Rat2
  expect_video : Bool
  expect_audio : Bool
  video_first : Bool
  audio_first : Bool
  vo_fps : ℚ
  last_audio_in_pts : ℚ
  samples_since_last_pts : Int
  audio_pts_offset : Option ℚ
  last_video_in_pts : Option ℚ
  discontinuity_pts_offset : Option ℚ
  metadata : Option AVDict
  avio_open_calls : Nat
  write_header_calls : Nat
  trailer_calls : Nat
deriving DecidableEq, Repr

/-- The `CHECK_FAIL` / `CHECK_FAIL_UNLOCK` guard condition:
`ctx->failed || ctx->finished`. -/
def check_fail (ctx : EncCtx) : Bool := ctx.failed || ctx.finished

/-- Flush a codec's `stats_out` into a still-open two-pass channel, as
`encode_lavc_finish` does before freeing the codec context. -/
def flush_stats (buf : Option CStr) (cc : Option CodecCtx) : Option CStr :=
  match cc, buf with
  | some c, some b =>
    match c.stats_out with
    | some s => some (b ++ s)
    | none => some b
  | _, _ => buf

/-- `encode_lavc_finish`: idempotent teardown.  Writes the trailer if the
header went out, flushes pending two-pass statistics, frees both codec
contexts, the streams, the two-pass channels, the I/O handle and the muxer
context, then latches `finished`. -/
def encode_lavc_finish (ctx : EncCtx) : EncCtx :=
  if ctx.finished then ctx
  else
    let ctx :=
      if ctx.avc then
        let ctx := if 0 < ctx.header_written
          then { ctx with trailer_calls := ctx.trailer_calls + 1 } else ctx
        let ctx := { ctx with
          twopass_bytebuffer_v := flush_stats ctx.twopass_bytebuffer_v ctx.vcc,
          vcc := none }
        let ctx := { ctx with
          twopass_bytebuffer_a := flush_stats ctx.twopass_bytebuffer_a ctx.acc,
          acc := none }
        -- av_free each stream; the muxer context is freed below anyway
        let ctx := { ctx with streams := [], vst := none, ast := none }
        let ctx := { ctx with
          twopass_bytebuffer_v := none, twopass_bytebuffer_a := none }
        let ctx := if ctx.pb_open then { ctx with pb_open := false } else ctx
        { ctx with avc := false }
      else ctx
    { ctx with finished := true }

/-- `encode_lavc_fail`: log the reason (not modelled), then latch `failed`
and tear down — a no-op if already failed. -/
def encode_lavc_fail (ctx : EncCtx) : EncCtx :=
  if ctx.failed then ctx
  else encode_lavc_finish { ctx with failed := true }

/-- Results of the external calls `encode_lavc_start` makes. -/
structure StartEnv where
  avio_open_ok : Bool
  write_header_ok : Bool
  now : ℚ
deriving DecidableEq, Repr

/-- `encode_lavc_start`: the header lifecycle.  The `header_written` latch
(0 not started, -1 start failed, 1 started) is checked before the
failed/finished guard; on the first real attempt the latch is set to -1 up
front, the output file is opened unless the format needs no file, metadata
is copied into the muxer, the header is written, leftover `ofopts` keys
are warned about and the dictionary freed, and the latch moves to 1. -/
def encode_lavc_start (env : StartEnv) (ctx : EncCtx) : Int × EncCtx :=
  if ctx.header_written < 0 then (0, ctx)
  else if 0 < ctx.header_written then (1, ctx)
  else if check_fail ctx then (0, ctx)
  else if ctx.expect_video && ctx.vcc.isNone &&
      (!ctx.fmt_video_codec_none || ctx.options.vcodec) then
    (0, encode_lavc_fail ctx)
  else if ctx.expect_audio && ctx.acc.isNone &&
      (!ctx.fmt_audio_codec_none || ctx.options.acodec) then
    (0, encode_lavc_fail ctx)
  else
    let ctx := { ctx with header_written := -1 }
    if !ctx.fmt_nofile && !env.avio_open_ok then
      (0, encode_lavc_fail
        { ctx with avio_open_calls := ctx.avio_open_calls + 1 })
    else
      let ctx := if !ctx.fmt_nofile then
          { ctx with avio_open_calls := ctx.avio_open_calls + 1,
                     pb_open := true }
        else ctx
      let ctx := { ctx with t0 := env.now }
      let ctx := match ctx.metadata with
        | some md =>
          let newmd :=
            md.foldl
              (fun (d : AVDict) (kv : CStr × CStr) =>
                av_dict_set d kv.1 (some kv.2) false)
              ctx.avc_metadata
          { ctx with avc_metadata := newmd }
        | none => ctx
      let ctx := { ctx with write_header_calls := ctx.write_header_calls + 1 }
      if !env.write_header_ok then (0, encode_lavc_fail ctx)
      else (1, { ctx with foptions := [], header_written := 1 })

/-- External data for `encode_lavc_alloc_stream`: the libavutil rational
helpers (black-box library functions), and the outcomes of the two-pass
log-file opens/read. -/
structure AllocEnv where
  av_d2q : ℚ → Rat2
  nearest : Rat2 → List Rat2 → Rat2
  pass2_open_ok : Bool
  pass2_content : Option CStr
  pass1_open_ok : Bool

/-- `avformat_new_stream(ctx->avc, NULL)`: append a stream whose index is
the current stream count; its `codecpar` type starts as unknown. -/
def avformat_new_stream (ctx : EncCtx) (mt : MediaType) : Nat × EncCtx :=
  let idx := ctx.streams.length
  (idx,
   { ctx with streams :=
       ctx.streams ++ [{ index := idx, time_base := ⟨0, 0⟩, codec_type := mt }] })

/-- The timebase negotiation block of `encode_lavc_alloc_stream`: runs only
while `ctx->timebase.den == 0`, choosing `--ofps`, then the vo-reported
fps under `--oautofps`, then the fixed guess 24000/1, snapped to the video
encoder's supported frame-rate list if it has one; the timebase is the
reciprocal of the chosen rate. -/
def negotiate_timebase (env : AllocEnv) (ctx : EncCtx) : EncCtx :=
  if ctx.timebase.den = 0 then
    let r : Rat2 :=
      if 0 < ctx.options.fps then env.av_d2q ctx.options.fps
      else if ctx.options.autofps && 0 < ctx.vo_fps then env.av_d2q ctx.vo_fps
      else ⟨24000, 1⟩
    let r : Rat2 :=
      match ctx.has_vc, ctx.vc_supported_framerates with
      | true, some frs => env.nearest r frs
      | _, _ => r
    { ctx with timebase := ⟨r.den, r.num⟩ }
  else ctx

/-- `ctx->vst->time_base = ctx->timebase` (or the audio analogue): update
the session stream with the given index. -/
def set_stream_tb (ctx : EncCtx) (si : Option Nat) (tb : Rat2) : EncCtx :=
  match si with
  | none => ctx
  | some i =>
    let newstreams := ctx.streams.map
      (fun s => if s.index = i then { s with time_base := tb } else s)
    { ctx with streams := newstreams }

/-- `encode_2pass_prepare`: acts on the slot's dictionary, codec context
and two-pass channel.  NOTE (faithful to the source): the `"flags"` entry
that decides pass-1/pass-2 handling is read from `ctx->voptions` for BOTH
slots (`voptions` argument here), while the flag stripping on failure goes
to the slot's own dictionary (`dict`). -/
def encode_2pass_prepare (env : AllocEnv) (voptions : AVDict)
    (dict : AVDict) (codec : CodecCtx) (bytebuf : Option CStr) :
    AVDict × CodecCtx × Option CStr :=
  if bytebuf.isSome then (dict, codec, bytebuf)
  else
    let de : CStr := (av_dict_get voptions (cs "flags")).getD []
    let step1 : AVDict × CodecCtx × Option CStr :=
      if value_has_flag de (cs "pass2") then
        if !env.pass2_open_ok then
          let codec := { codec with
            flags := clearFlag codec.flags AV_CODEC_FLAG_PASS2 }
          let dict := (set_to_avdictionary dict (some (cs "flags"))
            (cs "-pass2")).2
          (dict, codec, bytebuf)
        else
          match env.pass2_content with
          | none => (dict, codec, none)
          | some content =>
            (dict, { codec with stats_in := some content }, none)
      else (dict, codec, bytebuf)
    let dict := step1.1
    let codec := step1.2.1
    let bytebuf := step1.2.2
    if value_has_flag de (cs "pass1") then
      if !env.pass1_open_ok then
        let dict := (set_to_avdictionary dict (some (cs "flags"))
          (cs "-pass1")).2
        (dict, codec, bytebuf)
      else (dict, codec, some [])
    else (dict, codec, bytebuf)

/-- The video half of the second `switch (mt)` of
`encode_lavc_alloc_stream`: encoder presence check, codec context
allocation, timebase assignment to stream and codec, `ovcopts` dictionary
construction, automatic `+qscale` / `+global_header` flags, and two-pass
preparation.  Returns `(result, stream_out, codec_out)` and the new
session state. -/
def alloc_video_tail (env : AllocEnv) (ctx : EncCtx) :
    (Int × Option Nat × Option CodecCtx) × EncCtx :=
  if !ctx.has_vc then
    if !ctx.fmt_video_codec_none || ctx.options.vcodec then
      ((-1, none, none), encode_lavc_fail ctx)
    else ((-1, none, none), ctx)
  else
    let vcc0 := avcodec_alloc_context3 MediaType.video
    let ctx := set_stream_tb ctx ctx.vst ctx.timebase
    let vcc1 := { vcc0 with time_base := ctx.timebase }
    let vop1 := ctx.options.vopts.foldl
      (fun (d : AVDict) (s : CStr) => (set_to_avdictionary d none s).2) []
    let vop2 := if (av_dict_get vop1 (cs "global_quality")).isSome then
        (set_to_avdictionary vop1 (some (cs "flags")) (cs "+qscale")).2
      else vop1
    let vop3 := if ctx.fmt_globalheader then
        (set_to_avdictionary vop2 (some (cs "flags")) (cs "+global_header")).2
      else vop2
    -- at this point ctx->voptions is vop3; the prepare call reads it
    let pr := encode_2pass_prepare env vop3 vop3 vcc1 ctx.twopass_bytebuffer_v
    let ctx := { ctx with
      voptions := pr.1, vcc := some pr.2.1, twopass_bytebuffer_v := pr.2.2 }
    ((0, ctx.vst, some pr.2.1), ctx)

/-- The audio half of the second `switch (mt)` of
`encode_lavc_alloc_stream`; symmetric to the video half except that the
two-pass decision still reads `ctx->voptions` (see
`encode_2pass_prepare`). -/
def alloc_audio_tail (env : AllocEnv) (ctx : EncCtx) :
    (Int × Option Nat × Option CodecCtx) × EncCtx :=
  if !ctx.has_ac then
    if !ctx.fmt_audio_codec_none || ctx.options.acodec then
      ((-1, none, none), encode_lavc_fail ctx)
    else ((-1, none, none), ctx)
  else
    let acc0 := avcodec_alloc_context3 MediaType.audio
    let ctx := set_stream_tb ctx ctx.ast ctx.timebase
    let acc1 := { acc0 with time_base := ctx.timebase }
    let aop1 := ctx.options.aopts.foldl
      (fun (d : AVDict) (s : CStr) => (set_to_avdictionary d none s).2) []
    let aop2 := if (av_dict_get aop1 (cs "global_quality")).isSome then
        (set_to_avdictionary aop1 (some (cs "flags")) (cs "+qscale")).2
      else aop1
    let aop3 := if ctx.fmt_globalheader then
        (set_to_avdictionary aop2 (some (cs "flags")) (cs "+global_header")).2
      else aop2
    -- faithful to the source: the decision dictionary is ctx->voptions
    let pr := encode_2pass_prepare env ctx.voptions aop3 acc1
      ctx.twopass_bytebuffer_a
    let ctx := { ctx with
      aoptions := pr.1, acc := some pr.2.1, twopass_bytebuffer_a := pr.2.2 }
    ((0, ctx.ast, some pr.2.1), ctx)

/-- The placeholder-reservation block at the top of
`encode_lavc_alloc_stream`: on the very first stream, if the *other*
media type is configured to come first, pre-create an untyped stream so
that index 0 is reserved for it. -/
def alloc_prealloc (ctx : EncCtx) (mt : MediaType) : EncCtx :=
  if ctx.streams.length = 0 then
    if mt = MediaType.video && ctx.audio_first then
      let st := avformat_new_stream ctx MediaType.unknown
      { st.2 with ast := some st.1 }
    else if mt = MediaType.audio && ctx.video_first then
      let st := avformat_new_stream ctx MediaType.unknown
      { st.2 with vst := some st.1 }
    else ctx
  else ctx

/-- `if (ctx->vst == NULL) ctx->vst = avformat_new_stream(...)`. -/
def alloc_ensure_vst (ctx : EncCtx) : EncCtx :=
  if ctx.vst.isNone then
    let st := avformat_new_stream ctx MediaType.unknown
    { st.2 with vst := some st.1 }
  else ctx

/-- `if (ctx->ast == NULL) ctx->ast = avformat_new_stream(...)`. -/
def alloc_ensure_ast (ctx : EncCtx) : EncCtx :=
  if ctx.ast.isNone then
    let st := avformat_new_stream ctx MediaType.unknown
    { st.2 with ast := some st.1 }
  else ctx

/-- `encode_lavc_alloc_stream`: guard, header check, placeholder stream
reservation for the configured first type, per-type duplicate check and
stream creation, timebase negotiation, then the per-type tail. -/
def encode_lavc_alloc_stream (env : AllocEnv) (ctx : EncCtx)
    (mt : MediaType) : (Int × Option Nat × Option CodecCtx) × EncCtx :=
  if check_fail ctx then ((-1, none, none), ctx)
  else if ctx.header_written ≠ 0 then ((-1, none, none), ctx)
  else
    let ctx := alloc_prealloc ctx mt
    match mt with
    | MediaType.video =>
      if ctx.vcc.isSome then ((-1, none, none), ctx)
      else alloc_video_tail env (negotiate_timebase env (alloc_ensure_vst ctx))
    | MediaType.audio =>
      if ctx.acc.isSome then ((-1, none, none), ctx)
      else alloc_audio_tail env (negotiate_timebase env (alloc_ensure_ast ctx))
    | MediaType.unknown =>
      ((-1, none, none), encode_lavc_fail ctx)

/-- Results of the external calls `encode_lavc_open_codec` makes. -/
structure OpenCodecEnv where
  avcodec_open2_ret : Int
  params_ret : Int
deriving DecidableEq, Repr

/-- `avcodec_parameters_from_context(stream->codecpar, codec)` as far as
the model observes it: the stream with the slot's index learns the codec
type. -/
def copy_params_to_stream (ctx : EncCtx) (si : Option Nat)
    (codec : CodecCtx) : EncCtx :=
  match si with
  | none => ctx
  | some i =>
    let newstreams := ctx.streams.map
      (fun s => if s.index = i then { s with codec_type := codec.codec_type }
                else s)
    { ctx with streams := newstreams }

/-- `encode_lavc_open_codec`: guard, experimental-codec compliance
relaxation, `avcodec_open2` with the slot dictionary, parameter copy to
the container stream, leftover-option warnings, dictionary free, and the
shared fail path on a negative result. -/
def encode_lavc_open_codec (env : OpenCodecEnv) (ctx : EncCtx)
    (codec : CodecCtx) : Int × CodecCtx × EncCtx :=
  if check_fail ctx then (-1, codec, ctx)
  else
    match codec.codec_type with
    | MediaType.video =>
      let codec := if ctx.vc_experimental then
          { codec with strict_std_compliance := FF_COMPLIANCE_EXPERIMENTAL }
        else codec
      let ret := env.avcodec_open2_ret
      let st := if 0 ≤ ret then
          (env.params_ret, copy_params_to_stream ctx ctx.vst codec)
        else (ret, ctx)
      let ctx := { st.2 with voptions := [] }
      if st.1 < 0 then (st.1, codec, encode_lavc_fail ctx)
      else (st.1, codec, ctx)
    | MediaType.audio =>
      let codec := if ctx.ac_experimental then
          { codec with strict_std_compliance := FF_COMPLIANCE_EXPERIMENTAL }
        else codec
      let ret := env.avcodec_open2_ret
      let st := if 0 ≤ ret then
          (env.params_ret, copy_params_to_stream ctx ctx.ast codec)
        else (ret, ctx)
      let ctx := { st.2 with aoptions := [] }
      if st.1 < 0 then (st.1, codec, encode_lavc_fail ctx)
      else (st.1, codec, ctx)
    | MediaType.unknown =>
      (-1, codec, encode_lavc_fail ctx)

/-- `encode_lavc_write_stats`: append the codec's fresh statistics text to
the matching still-open two-pass channel. -/
def encode_lavc_write_stats (ctx : EncCtx) (codec : CodecCtx) : EncCtx :=
  if check_fail ctx then ctx
  else
    match codec.codec_type with
    | MediaType.video =>
      match ctx.twopass_bytebuffer_v, codec.stats_out with
      | some b, some s => { ctx with twopass_bytebuffer_v := some (b ++ s) }
      | _, _ => ctx
    | MediaType.audio =>
      match ctx.twopass_bytebuffer_a, codec.stats_out with
      | some b, some s => { ctx with twopass_bytebuffer_a := some (b ++ s) }
      | _, _ => ctx
    | MediaType.unknown => ctx

/-- `encode_lavc_write_frame`.  `wret` is the value
`av_interleaved_write_frame` returns for this packet; it is propagated
verbatim.  The byte/frame/seconds accounting happens before that call. -/
def encode_lavc_write_frame (wret : Int) (ctx : EncCtx) (stream : StreamS)
    (packet : Packet) : Int × EncCtx :=
  if check_fail ctx then (-1, ctx)
  else if stream.index ≠ packet.stream_index then (-1, ctx)
  else if ctx.header_written ≤ 0 then (-1, ctx)
  else
    let ctx := match stream.codec_type with
      | MediaType.video =>
        { ctx with vbytes := ctx.vbytes + packet.size,
                   frames := ctx.frames + 1 }
      | MediaType.audio =>
        { ctx with abytes := ctx.abytes + packet.size,
                   audioseconds := ctx.audioseconds +
                     (packet.duration : ℚ) * (stream.time_base.num : ℚ) /
                       (stream.time_base.den : ℚ) }
      | MediaType.unknown => ctx
    (wret, ctx)

/-- `encode_lavc_getstatus`: guarded read-only snapshot.  The progress
text it formats into the caller's buffer is floating-point presentation
only and touches no session state, so the model keeps just the return
code and the (unchanged) state. -/
def encode_lavc_getstatus (ctx : EncCtx) : Int × EncCtx :=
  if check_fail ctx then (-1, ctx)
  else (0, ctx)

/-- `encode_lavc_discontinuity`: reset the cross-thread timestamp
bookkeeping to the no-PTS sentinel. -/
def encode_lavc_discontinuity (ctx : EncCtx) : EncCtx :=
  if check_fail ctx then ctx
  else { ctx with audio_pts_offset := none, last_video_in_pts := none,
                  discontinuity_pts_offset := none }

/-- `encode_lavc_expect_stream`. -/
def encode_lavc_expect_stream (ctx : EncCtx) (mt : MediaType) : EncCtx :=
  if check_fail ctx then ctx
  else
    match mt with
    | MediaType.video => { ctx with expect_video := true }
    | MediaType.audio => { ctx with expect_audio := true }
    | MediaType.unknown => ctx

/-- `encode_lavc_didfail`: lock-protected read of the failed latch. -/
def encode_lavc_didfail (ctx : EncCtx) : Bool := ctx.failed

/-- `encode_lavc_set_csp`; `conv` is the external `mp_csp_to_avcol_spc`
table. -/
def encode_lavc_set_csp (conv : Int → Int) (ctx : EncCtx)
    (codec : CodecCtx) (csp : Int) : Bool × CodecCtx :=
  if check_fail ctx then (false, codec)
  else if ctx.header_written ≠ 0 then (false, codec)
  else (true, { codec with colorspace := conv csp })

/-- `encode_lavc_set_csp_levels`; `conv` is the external
`mp_csp_levels_to_avcol_range` table. -/
def encode_lavc_set_csp_levels (conv : Int → Int) (ctx : EncCtx)
    (codec : CodecCtx) (lev : Int) : Bool × CodecCtx :=
  if check_fail ctx then (false, codec)
  else if ctx.header_written ≠ 0 then (false, codec)
  else (true, { codec with color_range := conv lev })

/-- `encode_lavc_get_csp`; `conv` is the external `avcol_spc_to_mp_csp`
table. -/
def encode_lavc_get_csp (conv : Int → Int) (ctx : EncCtx)
    (codec : CodecCtx) : Int :=
  if check_fail ctx then 0
  else conv codec.colorspace

/-- `encode_lavc_get_csp_levels`; `conv` is the external
`avcol_range_to_mp_csp_levels` table. -/
def encode_lavc_get_csp_levels (conv : Int → Int) (ctx : EncCtx)
    (codec : CodecCtx) : Int :=
  if check_fail ctx then 0
  else conv codec.color_range

/-! ### Concrete states for witnesses and counterexamples -/

/-- All-defaults options (`talloc_zero` plus the declared defaults the
modelled fields have). -/
def baseOptions : EncOptions where
  fps := 0
  autofps := false
  vcodec := false
  acodec := false
  video_first := false
  audio_first := false
  fopts := []
  vopts := []
  aopts := []

/-- A freshly initialized session: the state `encode_lavc_init` leaves
behind for a format with resolvable video and audio encoders, no declared
default codecs, and no special format flags. -/
def baseCtx : EncCtx where
  options := baseOptions
  has_vc := true
  has_ac := true
  vc_supported_framerates := none
  vc_experimental := false
  ac_experimental := false
  fmt_video_codec_none := true
  fmt_audio_codec_none := true
  fmt_nofile := false
  fmt_globalheader := false
  avc := true
  pb_open := false
  streams := []
  avc_metadata := []
  vst := none
  ast := none
  vcc := none
  acc := none
  foptions := []
  voptions := []
  aoptions := []
  twopass_bytebuffer_v := none
  twopass_bytebuffer_a := none
  header_written := 0
  failed := false
  finished := false
  vbytes := 0
  abytes := 0
  frames := 0
  audioseconds := 0
  t0 := 0
  timebase := ⟨0, 0⟩
  expect_video := false
  expect_audio := false
  video_first := false
  audio_first := false
  vo_fps := 0
  last_audio_in_pts := 0
  samples_since_last_pts := 0
  audio_pts_offset := none
  last_video_in_pts := none
  discontinuity_pts_offset := none
  metadata := none
  avio_open_calls := 0
  write_header_calls := 0
  trailer_calls := 0

/-- A start environment in which every external call succeeds. -/
def baseStartEnv : StartEnv where
  avio_open_ok := true
  write_header_ok := true
  now := 0

/-- An allocation environment with inert rational helpers and successful
log-file opens. -/
def baseAllocEnv : AllocEnv where
  av_d2q := fun _ => ⟨0, 1⟩
  nearest := fun r _ => r
  pass2_open_ok := true
  pass2_content := none
  pass1_open_ok := true

/-! ### Basic lemmas about the fail/finish latch -/

theorem finish_finished (c : EncCtx) :
    (encode_lavc_finish c).finished = true := by
  unfold encode_lavc_finish
  split
  · next h => exact h
  · rfl

theorem finish_failed (c : EncCtx) :
    (encode_lavc_finish c).failed = c.failed := by
  unfold encode_lavc_finish
  split_ifs <;> (try simp only []) <;> first
  | rfl
  | (split <;> rfl)

theorem finish_header (c : EncCtx) :
    (encode_lavc_finish c).header_written = c.header_written := by
  unfold encode_lavc_finish
  split_ifs <;> (try simp only []) <;> first
  | rfl
  | (split <;> rfl)

theorem finish_timebase (c : EncCtx) :
    (encode_lavc_finish c).timebase = c.timebase := by
  unfold encode_lavc_finish
  split_ifs <;> (try simp only []) <;> first
  | rfl
  | (split <;> rfl)

theorem fail_failed (c : EncCtx) : (encode_lavc_fail c).failed = true := by
  unfold encode_lavc_fail
  split
  · next h => exact h
  · rw [finish_failed]

theorem fail_header (c : EncCtx) :
    (encode_lavc_fail c).header_written = c.header_written := by
  unfold encode_lavc_fail
  split
  · rfl
  · rw [finish_header]

theorem fail_timebase (c : EncCtx) :
    (encode_lavc_fail c).timebase = c.timebase := by
  unfold encode_lavc_fail
  split
  · rfl
  · rw [finish_timebase]

/-- Claim C2: `fail` is idempotent and couples the two latches: the first
call on a non-failed session sets `failed` and immediately invokes
`finish`, so after any `fail` call both `failed` and `finished` are true;
a `fail` call on an already-failed session performs no state change.
(The hypothesis is the session invariant that a failed session is already
finished, which `fail` itself establishes.) -/
theorem fail_idempotent_couples_latches (ctx : EncCtx)
    (hinv : ctx.failed = true → ctx.finished = true) :
    ((encode_lavc_fail ctx).failed = true ∧
     (encode_lavc_fail ctx).finished = true) ∧
    (ctx.failed = true → encode_lavc_fail ctx = ctx) ∧
    (ctx.failed = false →
      encode_lavc_fail ctx = encode_lavc_finish { ctx with failed := true }) := by
  refine ⟨⟨fail_failed ctx, ?_⟩, ?_, ?_⟩
  · unfold encode_lavc_fail
    split
    · next h => exact hinv h
    · exact finish_finished _
  · intro h
    unfold encode_lavc_fail
    simp [h]
  · intro h
    unfold encode_lavc_fail
    simp [h]

/-- Witness for C2 at a concrete non-failed session. -/
theorem fail_idempotent_couples_latches_witness :
    ((encode_lavc_fail baseCtx).failed = true ∧
     (encode_lavc_fail baseCtx).finished = true) ∧
    (baseCtx.failed = true → encode_lavc_fail baseCtx = baseCtx) ∧
    (baseCtx.failed = false →
      encode_lavc_fail baseCtx =
        encode_lavc_finish { baseCtx with failed := true }) :=
  fail_idempotent_couples_latches baseCtx (by decide)

/-! ### The public operations as a single dispatch type (for claim C1) -/

/-- One public session operation together with its arguments and the
results of the external calls it would make. -/
inductive Op where
  | start (env : StartEnv)
  | allocStream (env : AllocEnv) (mt : MediaType)
  | openCodec (env : OpenCodecEnv) (codec : CodecCtx)
  | writeFrame (wret : Int) (stream : StreamS) (packet : Packet)
  | writeStats (codec : CodecCtx)
  | getStatus
  | discontinuity
  | expectStream (mt : MediaType)
  | setCsp (conv : Int → Int) (codec : CodecCtx) (csp : Int)
  | setCspLevels (conv : Int → Int) (codec : CodecCtx) (lev : Int)
  | getCsp (conv : Int → Int) (codec : CodecCtx)
  | getCspLevels (conv : Int → Int) (codec : CodecCtx)

/-- Run an operation, reducing its primary return value to an `Int`
(void operations yield 0, booleans 1/0). -/
def runOp : Op → EncCtx → Int × EncCtx
  | Op.start env, ctx => encode_lavc_start env ctx
  | Op.allocStream env mt, ctx =>
    let r := encode_lavc_alloc_stream env ctx mt
    (r.1.1, r.2)
  | Op.openCodec env codec, ctx =>
    let r := encode_lavc_open_codec env ctx codec
    (r.1, r.2.2)
  | Op.writeFrame wret stream packet, ctx =>
    encode_lavc_write_frame wret ctx stream packet
  | Op.writeStats codec, ctx => (0, encode_lavc_write_stats ctx codec)
  | Op.getStatus, ctx => encode_lavc_getstatus ctx
  | Op.discontinuity, ctx => (0, encode_lavc_discontinuity ctx)
  | Op.expectStream mt, ctx => (0, encode_lavc_expect_stream ctx mt)
  | Op.setCsp conv codec csp, ctx =>
    (if (encode_lavc_set_csp conv ctx codec csp).1 then 1 else 0, ctx)
  | Op.setCspLevels conv codec lev, ctx =>
    (if (encode_lavc_set_csp_levels conv ctx codec lev).1 then 1 else 0, ctx)
  | Op.getCsp conv codec, ctx => (encode_lavc_get_csp conv ctx codec, ctx)
  | Op.getCspLevels conv codec, ctx =>
    (encode_lavc_get_csp_levels conv ctx codec, ctx)

/-- The neutral/failure sentinel each public operation's guard returns. -/
def opSentinel : Op → Int
  | Op.start _ => 0
  | Op.allocStream _ _ => -1
  | Op.openCodec _ _ => -1
  | Op.writeFrame _ _ _ => -1
  | Op.writeStats _ => 0
  | Op.getStatus => -1
  | Op.discontinuity => 0
  | Op.expectStream _ => 0
  | Op.setCsp _ _ _ => 0
  | Op.setCspLevels _ _ _ => 0
  | Op.getCsp _ _ => 0
  | Op.getCspLevels _ _ => 0

/-- Claim C1, amended: on a failed session every public operation leaves
the whole session state unchanged (hence in particular the byte counters,
the frame counter and the stream slots), and returns its neutral/failure
sentinel — with the one exception that `start` returns the success value 1
(without side effects) when the header had already been written before the
failure, because its header-latch check precedes the failed/finished
guard. -/
theorem guarded_ops_after_fail (op : Op) (ctx : EncCtx)
    (h : ctx.failed = true) :
    (runOp op ctx).2 = ctx ∧
    ((runOp op ctx).1 = opSentinel op ∨
      (0 < ctx.header_written ∧ (runOp op ctx).1 = 1 ∧
        ∃ env, op = Op.start env)) := by
  have hcf : check_fail ctx = true := by simp [check_fail, h]
  cases op with
  | start env =>
    rw [runOp]
    by_cases h1 : ctx.header_written < 0
    · rw [encode_lavc_start]
      simp [h1, opSentinel]
    · by_cases h2 : 0 < ctx.header_written
      · have he : encode_lavc_start env ctx = (1, ctx) := by
          rw [encode_lavc_start]
          simp [h1, h2]
        rw [he]
        exact ⟨rfl, Or.inr ⟨h2, rfl, env, rfl⟩⟩
      · rw [encode_lavc_start]
        simp [h1, h2, hcf, opSentinel]
  | allocStream env mt =>
    rw [runOp]
    simp [encode_lavc_alloc_stream, hcf, opSentinel]
  | openCodec env codec =>
    rw [runOp]
    simp [encode_lavc_open_codec, hcf, opSentinel]
  | writeFrame wret stream packet =>
    rw [runOp]
    simp [encode_lavc_write_frame, hcf, opSentinel]
  | writeStats codec =>
    rw [runOp]
    simp [encode_lavc_write_stats, hcf, opSentinel]
  | getStatus =>
    rw [runOp]
    simp [encode_lavc_getstatus, hcf, opSentinel]
  | discontinuity =>
    rw [runOp]
    simp [encode_lavc_discontinuity, hcf, opSentinel]
  | expectStream mt =>
    rw [runOp]
    simp [encode_lavc_expect_stream, hcf, opSentinel]
  | setCsp conv codec csp =>
    rw [runOp]
    simp [encode_lavc_set_csp, hcf, opSentinel]
  | setCspLevels conv codec lev =>
    rw [runOp]
    simp [encode_lavc_set_csp_levels, hcf, opSentinel]
  | getCsp conv codec =>
    rw [runOp]
    simp [encode_lavc_get_csp, hcf, opSentinel]
  | getCspLevels conv codec =>
    rw [runOp]
    simp [encode_lavc_get_csp_levels, hcf, opSentinel]

/-- A concrete failed (and, per the latch coupling, finished) session. -/
def ctxFailedIdle : EncCtx :=
  { baseCtx with failed := true, finished := true, avc := false }

/-- Witness for the amended C1 at a concrete failed session and
operation. -/
theorem guarded_ops_after_fail_witness :
    (runOp Op.getStatus ctxFailedIdle).2 = ctxFailedIdle ∧
    ((runOp Op.getStatus ctxFailedIdle).1 = opSentinel Op.getStatus ∨
      (0 < ctxFailedIdle.header_written ∧
        (runOp Op.getStatus ctxFailedIdle).1 = 1 ∧
        ∃ env, Op.getStatus = Op.start env)) :=
  guarded_ops_after_fail Op.getStatus ctxFailedIdle rfl

/-- The session reached by: successful `start` on a fresh session, then
`fail`.  Its header latch is 1 while `failed` and `finished` are set. -/
def ctxFailedAfterStart : EncCtx :=
  encode_lavc_fail (encode_lavc_start baseStartEnv baseCtx).2

/-- Counterexample to C1 as stated: on this failed session (reached by
`start` then `fail`), the subsequent `start` call does NOT return the
failure sentinel 0 of its guard — it returns the success value 1, because
the `header_written > 0` early return precedes the guard. -/
theorem guarded_ops_after_fail_counterexample :
    ctxFailedAfterStart.failed = true ∧
    opSentinel (Op.start baseStartEnv) = 0 ∧
    (runOp (Op.start baseStartEnv) ctxFailedAfterStart).1 = 1 ∧
    (runOp (Op.start baseStartEnv) ctxFailedAfterStart).2 =
      ctxFailedAfterStart := by
  refine ⟨rfl, rfl, rfl, rfl⟩

/-! ### Claim C3: idempotence of `start` once the header latch moves -/

/-- Every `encode_lavc_start` outcome is either success 1 with the latch
at a positive value, or failure 0 with the latch negative or (latch still
0 and) the session failed/finished. -/
theorem start_result_cases (env : StartEnv) (ctx : EncCtx) :
    ((encode_lavc_start env ctx).1 = 1 ∧
      0 < (encode_lavc_start env ctx).2.header_written) ∨
    ((encode_lavc_start env ctx).1 = 0 ∧
      ((encode_lavc_start env ctx).2.header_written < 0 ∨
        ((encode_lavc_start env ctx).2.header_written = 0 ∧
          check_fail (encode_lavc_start env ctx).2 = true))) := by
  rw [encode_lavc_start]
  by_cases h1 : ctx.header_written < 0
  · simp [h1]
  · by_cases h2 : 0 < ctx.header_written
    · simp [h1, h2]
    · have h0 : ctx.header_written = 0 := by omega
      by_cases h3 : check_fail ctx = true
      · simp [h1, h2, h3, h0]
      · by_cases h4 : (ctx.expect_video && ctx.vcc.isNone &&
            (!ctx.fmt_video_codec_none || ctx.options.vcodec)) = true
        · right
          simp only [h1, h2, h3, h4, if_true, if_false, if_neg, if_pos]
          simp [fail_header, h0, check_fail, fail_failed]
        · by_cases h5 : (ctx.expect_audio && ctx.acc.isNone &&
              (!ctx.fmt_audio_codec_none || ctx.options.acodec)) = true
          · right
            simp only [h1, h2, h3, h4, h5, if_true, if_false, if_neg, if_pos]
            simp [fail_header, h0, check_fail, fail_failed]
          · by_cases hn : ctx.fmt_nofile = true
            · -- no file to open
              by_cases hw : env.write_header_ok = true
              · left
                rcases hmd : ctx.metadata with _ | md <;>
                  simp [h1, h2, h3, h4, h5, hn, hw, hmd]
              · right
                rcases hmd : ctx.metadata with _ | md <;>
                  simp [h1, h2, h3, h4, h5, hn, hw, hmd, fail_header]
            · by_cases ha : env.avio_open_ok = true
              · by_cases hw : env.write_header_ok = true
                · left
                  rcases hmd : ctx.metadata with _ | md <;>
                    simp [h1, h2, h3, h4, h5, hn, ha, hw, hmd]
                · right
                  rcases hmd : ctx.metadata with _ | md <;>
                    simp [h1, h2, h3, h4, h5, hn, ha, hw, hmd, fail_header]
              · right
                simp [h1, h2, h3, h4, h5, hn, ha, fail_header]

/-- A second `start` call is decided purely by the latch and the guard. -/
theorem start_again (env2 : StartEnv) (c : EncCtx) :
    (0 < c.header_written → encode_lavc_start env2 c = (1, c)) ∧
    (c.header_written < 0 → encode_lavc_start env2 c = (0, c)) ∧
    (c.header_written = 0 → check_fail c = true →
      encode_lavc_start env2 c = (0, c)) := by
  refine ⟨?_, ?_, ?_⟩
  · intro h
    rw [encode_lavc_start]
    have h' : ¬ c.header_written < 0 := by omega
    simp [h, h']
  · intro h
    rw [encode_lavc_start]
    simp [h]
  · intro h hcf
    rw [encode_lavc_start]
    simp [h, hcf]

/-- Claim C3: `start` is idempotent once the header latch leaves its
initial state: whatever the first call returned (1 success / 0 failure),
every later call returns the same value and leaves the session state —
including the I/O attempt counters, so no file open or header write is
re-attempted — completely unchanged. -/
theorem start_idempotent (env env2 : StartEnv) (ctx : EncCtx) :
    ((encode_lavc_start env ctx).1 = 1 →
      encode_lavc_start env2 (encode_lavc_start env ctx).2 =
        (1, (encode_lavc_start env ctx).2)) ∧
    ((encode_lavc_start env ctx).1 = 0 →
      encode_lavc_start env2 (encode_lavc_start env ctx).2 =
        (0, (encode_lavc_start env ctx).2)) := by
  rcases start_result_cases env ctx with ⟨hr, hh⟩ | ⟨hr, hh⟩
  · refine ⟨fun _ => (start_again env2 _).1 hh, fun h0 => ?_⟩
    rw [hr] at h0
    exact absurd h0 (by decide)
  · refine ⟨fun h1 => ?_, fun _ => ?_⟩
    · rw [hr] at h1
      exact absurd h1 (by decide)
    · rcases hh with hneg | ⟨hz, hcf⟩
      · exact (start_again env2 _).2.1 hneg
      · exact (start_again env2 _).2.2 hz hcf

/-- Witness for C3: a concrete successful first `start` followed by a
second call. -/
theorem start_idempotent_witness :
    (encode_lavc_start baseStartEnv baseCtx).1 = 1 ∧
    encode_lavc_start baseStartEnv
        (encode_lavc_start baseStartEnv baseCtx).2 =
      (1, (encode_lavc_start baseStartEnv baseCtx).2) :=
  ⟨rfl, (start_idempotent baseStartEnv baseStartEnv baseCtx).1 rfl⟩

/-! ### Claims C7 and C9: frame accounting in `encode_lavc_write_frame` -/

/-- A concrete started session (fresh session after a successful
`start`). -/
def ctxStarted : EncCtx := (encode_lavc_start baseStartEnv baseCtx).2

/-- One video `write_frame` on a started, non-failed session: the video
byte counter grows by the packet size, the frame counter by one, and the
muxer's return value is propagated verbatim. -/
theorem write_frame_video_step (r : Int) (c : EncCtx) (i : Nat) (tb : Rat2)
    (sz dur : Int) (hg : check_fail c = false)
    (hhw : 0 < c.header_written) :
    encode_lavc_write_frame r c ⟨i, tb, MediaType.video⟩ ⟨i, sz, dur⟩ =
      (r, { c with vbytes := c.vbytes + sz, frames := c.frames + 1 }) := by
  rw [encode_lavc_write_frame]
  have hh : ¬ c.header_written ≤ 0 := by omega
  simp [hg, hh]

/-- One audio `write_frame` on a started, non-failed session: the audio
byte counter grows by the packet size and the accumulated seconds by
`duration * time_base`. -/
theorem write_frame_audio_step (r : Int) (c : EncCtx) (i : Nat) (n d : Int)
    (sz dur : Int) (hg : check_fail c = false)
    (hhw : 0 < c.header_written) :
    encode_lavc_write_frame r c ⟨i, ⟨n, d⟩, MediaType.audio⟩ ⟨i, sz, dur⟩ =
      (r, { c with abytes := c.abytes + sz,
                   audioseconds := c.audioseconds +
                     (dur : ℚ) * (n : ℚ) / (d : ℚ) }) := by
  rw [encode_lavc_write_frame]
  have hh : ¬ c.header_written ≤ 0 := by omega
  simp [hg, hh]

/-- Claim C7: on a started, non-failed session with zeroed counters,
three video frames of payload sizes 100, 200 and 50 yield a video byte
counter of 350 and a frame counter of 3; one audio frame with duration
value 48000 on a stream with timebase 1/48000 raises the accumulated
audio seconds by exactly 1. -/
theorem frame_accounting (r1 r2 r3 r4 : Int) (ctx : EncCtx) (iv ia : Nat)
    (tbv : Rat2) (sza : Int) (hg : check_fail ctx = false)
    (hhw : 0 < ctx.header_written) (hv : ctx.vbytes = 0)
    (hf : ctx.frames = 0) (ha : ctx.audioseconds = 0) :
    ((encode_lavc_write_frame r3
      (encode_lavc_write_frame r2
        (encode_lavc_write_frame r1 ctx
          ⟨iv, tbv, MediaType.video⟩ ⟨iv, 100, 0⟩).2
        ⟨iv, tbv, MediaType.video⟩ ⟨iv, 200, 0⟩).2
      ⟨iv, tbv, MediaType.video⟩ ⟨iv, 50, 0⟩).2.vbytes = 350 ∧
     (encode_lavc_write_frame r3
      (encode_lavc_write_frame r2
        (encode_lavc_write_frame r1 ctx
          ⟨iv, tbv, MediaType.video⟩ ⟨iv, 100, 0⟩).2
        ⟨iv, tbv, MediaType.video⟩ ⟨iv, 200, 0⟩).2
      ⟨iv, tbv, MediaType.video⟩ ⟨iv, 50, 0⟩).2.frames = 3) ∧
    (encode_lavc_write_frame r4 ctx
      ⟨ia, ⟨1, 48000⟩, MediaType.audio⟩ ⟨ia, sza, 48000⟩).2.audioseconds = 1 := by
  rw [write_frame_video_step r1 ctx iv tbv 100 0 hg hhw]
  rw [write_frame_video_step r2 _ iv tbv 200 0 (by simp [check_fail] at hg ⊢; exact hg) (by simpa using hhw)]
  rw [write_frame_video_step r3 _ iv tbv 50 0 (by simp [check_fail] at hg ⊢; exact hg) (by simpa using hhw)]
  rw [write_frame_audio_step r4 ctx ia 1 48000 sza 48000 hg hhw]
  refine ⟨⟨?_, ?_⟩, ?_⟩
  · simp [hv]
  · simp [hf]
  · rw [ha]
    norm_num

/-- Witness for C7 on a concrete started session. -/
theorem frame_accounting_witness :
    (check_fail ctxStarted = false ∧ 0 < ctxStarted.header_written ∧
     ctxStarted.vbytes = 0 ∧ ctxStarted.frames = 0 ∧
     ctxStarted.audioseconds = 0) ∧
    (((encode_lavc_write_frame 0
      (encode_lavc_write_frame 0
        (encode_lavc_write_frame 0 ctxStarted
          ⟨0, ⟨1, 24000⟩, MediaType.video⟩ ⟨0, 100, 0⟩).2
        ⟨0, ⟨1, 24000⟩, MediaType.video⟩ ⟨0, 200, 0⟩).2
      ⟨0, ⟨1, 24000⟩, MediaType.video⟩ ⟨0, 50, 0⟩).2.vbytes = 350 ∧
     (encode_lavc_write_frame 0
      (encode_lavc_write_frame 0
        (encode_lavc_write_frame 0 ctxStarted
          ⟨0, ⟨1, 24000⟩, MediaType.video⟩ ⟨0, 100, 0⟩).2
        ⟨0, ⟨1, 24000⟩, MediaType.video⟩ ⟨0, 200, 0⟩).2
      ⟨0, ⟨1, 24000⟩, MediaType.video⟩ ⟨0, 50, 0⟩).2.frames = 3) ∧
    (encode_lavc_write_frame 0 ctxStarted
      ⟨1, ⟨1, 48000⟩, MediaType.audio⟩ ⟨1, 4096, 48000⟩).2.audioseconds = 1) :=
  ⟨⟨rfl, by decide, rfl, rfl, rfl⟩,
   frame_accounting 0 0 0 0 ctxStarted 0 1 ⟨1, 24000⟩ 4096
     rfl (by decide) rfl rfl rfl⟩

/-- Claim C9: whenever a `write_frame` call passes the guard, the
stream-index match and the header check, the per-type byte counter (and
for video the frame counter) has been incremented by the packet's payload
size before the interleaved write runs — so the increment also happens
for every negative (failing) muxer return value `wret`, which is
propagated verbatim. -/
theorem write_frame_counts_independent_of_result (wret : Int)
    (ctx : EncCtx) (stream : StreamS) (packet : Packet)
    (hg : check_fail ctx = false)
    (hidx : stream.index = packet.stream_index)
    (hhw : 0 < ctx.header_written) :
    (encode_lavc_write_frame wret ctx stream packet).1 = wret ∧
    (stream.codec_type = MediaType.video →
      (encode_lavc_write_frame wret ctx stream packet).2.vbytes =
        ctx.vbytes + packet.size ∧
      (encode_lavc_write_frame wret ctx stream packet).2.frames =
        ctx.frames + 1) ∧
    (stream.codec_type = MediaType.audio →
      (encode_lavc_write_frame wret ctx stream packet).2.abytes =
        ctx.abytes + packet.size) := by
  rw [encode_lavc_write_frame]
  have hh : ¬ ctx.header_written ≤ 0 := by omega
  cases hct : stream.codec_type <;> simp [hg, hidx, hh, hct]

/-- Witness for C9 with a concrete failing muxer result (-5). -/
theorem write_frame_counts_independent_of_result_witness :
    (encode_lavc_write_frame (-5) ctxStarted
      ⟨0, ⟨1, 24000⟩, MediaType.video⟩ ⟨0, 100, 0⟩).1 = -5 ∧
    ((⟨0, ⟨1, 24000⟩, MediaType.video⟩ : StreamS).codec_type =
        MediaType.video →
      (encode_lavc_write_frame (-5) ctxStarted
        ⟨0, ⟨1, 24000⟩, MediaType.video⟩ ⟨0, 100, 0⟩).2.vbytes =
        ctxStarted.vbytes + (100 : Int) ∧
      (encode_lavc_write_frame (-5) ctxStarted
        ⟨0, ⟨1, 24000⟩, MediaType.video⟩ ⟨0, 100, 0⟩).2.frames =
        ctxStarted.frames + 1) ∧
    ((⟨0, ⟨1, 24000⟩, MediaType.video⟩ : StreamS).codec_type =
        MediaType.audio →
      (encode_lavc_write_frame (-5) ctxStarted
        ⟨0, ⟨1, 24000⟩, MediaType.video⟩ ⟨0, 100, 0⟩).2.abytes =
        ctxStarted.abytes + (100 : Int)) :=
  write_frame_counts_independent_of_result (-5) ctxStarted
    ⟨0, ⟨1, 24000⟩, MediaType.video⟩ ⟨0, 100, 0⟩ rfl rfl (by decide)

/-! ### Claim C10: overlong keys in `"key=value"` strings are rejected -/

/-- Claim C10: a combined `"key=value"` string whose key part (the text
before the first `=`) is 1024 bytes or longer is treated as malformed:
`set_to_avdictionary` returns the failure result and leaves the
dictionary unchanged. -/
theorem overlong_key_rejected (d : AVDict) (v : CStr) (i : Nat)
    (hfind : v.findIdx? (fun c => decide (c = '=')) = some i)
    (hlen : 1024 ≤ i) :
    set_to_avdictionary d none v = (false, d) := by
  rw [set_to_avdictionary]
  simp [hfind, hlen]

/-- A combined option string with a 1024-character key part. -/
def overlongKeyInput : CStr := List.replicate 1024 'k' ++ cs "=1"

/-- Witness for C10: the concrete 1024-character key is rejected. -/
theorem overlong_key_rejected_witness :
    overlongKeyInput.findIdx? (fun c => decide (c = '=')) = some 1024 ∧
    set_to_avdictionary [] none overlongKeyInput = (false, []) :=
  ⟨by decide,
   overlong_key_rejected [] overlongKeyInput 1024 (by decide) (by decide)⟩

/-! ### Claim C8: the `"qscale"` → `"global_quality"` rewrite -/

/-- The value the C8 sentence predicts: `"(v)*QP2LAMBDA"`, with a leading
`+`/`-` sign moved in front of the parenthesized remainder. -/
def qscale_claimed (v : CStr) : CStr :=
  match v with
  | c :: rest =>
    if isSign c then c :: '(' :: (rest ++ cs ")*QP2LAMBDA")
    else '(' :: (c :: rest ++ cs ")*QP2LAMBDA")
  | [] => '(' :: cs ")*QP2LAMBDA"

theorem qscale_claimed_ne_nil (v : CStr) : qscale_claimed v ≠ [] := by
  rw [qscale_claimed.eq_def]
  cases v with
  | nil => simp
  | cons c rest =>
    by_cases h : isSign c = true <;> simp [h]

/-- For values that fit the 1024-byte buffer the snprintf model produces
exactly the claimed expression. -/
theorem qscale_rewrite_eq_claimed (v : CStr) (hlen : v.length ≤ 1011) :
    qscale_rewrite v = qscale_claimed v := by
  rw [qscale_rewrite.eq_def, qscale_claimed.eq_def]
  cases v with
  | nil => simp [cs]
  | cons c rest =>
    have hr : rest.length ≤ 1010 := by
      simpa using hlen
    by_cases h : isSign c = true
    · simp only [h, if_pos, if_true, List.take, List.tail]
      rw [List.take_of_length_le]
      · simp
      · simp [cs]
        omega
    · simp only [h, if_neg, if_false, Bool.not_eq_true]
      rw [List.take_of_length_le]
      · simp
      · simp [cs]
        omega

theorem find?_of_av_dict_get_none (d : AVDict) (key : CStr)
    (h : av_dict_get d key = none) :
    d.find? (fun kv => decide (kv.1 = key)) = none := by
  rw [av_dict_get] at h
  exact Option.map_eq_none'.mp h

/-- Claim C8, amended: `set_to_avdictionary` with the literal key
`"qscale"` and a value `v` that fits the 1024-byte value buffer
(`v.length ≤ 1011`) stores `"(v)*QP2LAMBDA"` — with a leading `+`/`-`
moved in front of the parenthesis — under `"global_quality"` (here on a
dictionary that does not yet bind that key; longer values are truncated
to the 1023 characters that fit the buffer, see the counterexample). -/
theorem qscale_sets_global_quality (d : AVDict) (v : CStr)
    (hq : av_dict_get d (cs "global_quality") = none)
    (hlen : v.length ≤ 1011) :
    (set_to_avdictionary d (some (cs "qscale")) v).1 = true ∧
    av_dict_get (set_to_avdictionary d (some (cs "qscale")) v).2
        (cs "global_quality") = some (qscale_claimed v) := by
  have hfind := find?_of_av_dict_get_none d (cs "global_quality") hq
  rw [set_to_avdictionary]
  simp only [if_pos, if_true]
  have hrw : qscale_rewrite v = qscale_claimed v :=
    qscale_rewrite_eq_claimed v hlen
  refine ⟨trivial, ?_⟩
  · have hne : qscale_claimed v ≠ [] := qscale_claimed_ne_nil v
    simp only [hrw]
    rw [if_neg hne]
    rw [av_dict_set]
    simp only [hfind, Option.isSome_none, Bool.false_eq_true, if_false,
      if_neg]
    rw [av_dict_get, List.find?_append, hfind]
    simp

/-- Witness for the amended C8 at a concrete small value with a sign. -/
theorem qscale_sets_global_quality_witness :
    (set_to_avdictionary [] (some (cs "qscale")) (cs "+3")).1 = true ∧
    av_dict_get (set_to_avdictionary [] (some (cs "qscale")) (cs "+3")).2
        (cs "global_quality") = some (qscale_claimed (cs "+3")) :=
  qscale_sets_global_quality [] (cs "+3") rfl (by decide)

/-- A value too long for the 1024-byte value buffer. -/
def longQscaleValue : CStr := List.replicate 1012 'x'

/-- Counterexample to C8 as stated: for a 1012-character value the stored
string is NOT the claimed `"(v)*QP2LAMBDA"` — the 1024-byte `valuebuf`
truncates it to 1023 characters, losing the trailing `A`. -/
theorem qscale_sets_global_quality_counterexample :
    av_dict_get
        (set_to_avdictionary [] (some (cs "qscale")) longQscaleValue).2
        (cs "global_quality") ≠
      some ('(' :: (longQscaleValue ++ cs ")*QP2LAMBDA")) := by
  decide

/-! ### Claims C4 and C5: timebase negotiation and stream ordering -/

theorem negotiate_fixed (env : AllocEnv) (c : EncCtx)
    (h : c.timebase.den ≠ 0) : negotiate_timebase env c = c := by
  rw [negotiate_timebase]
  simp [h]

theorem new_stream_snd (c : EncCtx) (mt : MediaType) :
    (avformat_new_stream c mt).2 = { c with streams := c.streams ++
      [{ index := c.streams.length, time_base := ⟨0, 0⟩,
         codec_type := mt }] } := by
  rw [avformat_new_stream]

theorem new_stream_fst (c : EncCtx) (mt : MediaType) :
    (avformat_new_stream c mt).1 = c.streams.length := by
  rw [avformat_new_stream]

theorem set_stream_tb_timebase (c : EncCtx) (si : Option Nat) (tb : Rat2) :
    (set_stream_tb c si tb).timebase = c.timebase := by
  cases si <;> simp [set_stream_tb]

theorem set_stream_tb_vst (c : EncCtx) (si : Option Nat) (tb : Rat2) :
    (set_stream_tb c si tb).vst = c.vst := by
  cases si <;> simp [set_stream_tb]

theorem set_stream_tb_ast (c : EncCtx) (si : Option Nat) (tb : Rat2) :
    (set_stream_tb c si tb).ast = c.ast := by
  cases si <;> simp [set_stream_tb]

theorem set_stream_tb_vcc (c : EncCtx) (si : Option Nat) (tb : Rat2) :
    (set_stream_tb c si tb).vcc = c.vcc := by
  cases si <;> simp [set_stream_tb]

theorem set_stream_tb_acc (c : EncCtx) (si : Option Nat) (tb : Rat2) :
    (set_stream_tb c si tb).acc = c.acc := by
  cases si <;> simp [set_stream_tb]

theorem set_stream_tb_failed (c : EncCtx) (si : Option Nat) (tb : Rat2) :
    (set_stream_tb c si tb).failed = c.failed := by
  cases si <;> simp [set_stream_tb]

theorem set_stream_tb_finished (c : EncCtx) (si : Option Nat) (tb : Rat2) :
    (set_stream_tb c si tb).finished = c.finished := by
  cases si <;> simp [set_stream_tb]

theorem set_stream_tb_header (c : EncCtx) (si : Option Nat) (tb : Rat2) :
    (set_stream_tb c si tb).header_written = c.header_written := by
  cases si <;> simp [set_stream_tb]

theorem set_stream_tb_len (c : EncCtx) (si : Option Nat) (tb : Rat2) :
    (set_stream_tb c si tb).streams.length = c.streams.length := by
  cases si <;> simp [set_stream_tb]

theorem set_stream_tb_has_vc (c : EncCtx) (si : Option Nat) (tb : Rat2) :
    (set_stream_tb c si tb).has_vc = c.has_vc := by
  cases si <;> simp [set_stream_tb]

theorem set_stream_tb_has_ac (c : EncCtx) (si : Option Nat) (tb : Rat2) :
    (set_stream_tb c si tb).has_ac = c.has_ac := by
  cases si <;> simp [set_stream_tb]

/-- Every stream carrying the targeted index ends up with the assigned
timebase. -/
theorem set_stream_tb_mem (c : EncCtx) (i : Nat) (tb : Rat2) :
    ∀ s ∈ (set_stream_tb c (some i) tb).streams, s.index = i →
      s.time_base = tb := by
  intro s hs hidx
  simp only [set_stream_tb, List.mem_map] at hs
  rcases hs with ⟨t, ht, rfl⟩
  by_cases h : t.index = i
  · simp [h]
  · rw [if_neg h] at hidx
    exact absurd hidx h

/-- Two-pass preparation never touches the codec's timebase. -/
theorem prepare_time_base (env : AllocEnv) (vop d : AVDict) (cc : CodecCtx)
    (b : Option CStr) :
    (encode_2pass_prepare env vop d cc b).2.1.time_base = cc.time_base := by
  rw [encode_2pass_prepare]
  split
  · rfl
  · simp only []
    split_ifs <;> first
    | rfl
    | (cases env.pass2_content <;> rfl)

/-- Characterization of the video allocation tail when the encoder is
present: success, the slot stream handle is returned, the returned codec
context and every stream with the slot's index carry the shared timebase,
and the lifecycle fields are untouched. -/
theorem alloc_video_tail_success (env : AllocEnv) (c : EncCtx)
    (h : c.has_vc = true) :
    (alloc_video_tail env c).1.1 = 0 ∧
    (alloc_video_tail env c).1.2.1 = c.vst ∧
    (∃ cc, (alloc_video_tail env c).1.2.2 = some cc ∧
      cc.time_base = c.timebase) ∧
    (alloc_video_tail env c).2.timebase = c.timebase ∧
    (alloc_video_tail env c).2.vst = c.vst ∧
    (alloc_video_tail env c).2.ast = c.ast ∧
    (alloc_video_tail env c).2.acc = c.acc ∧
    (alloc_video_tail env c).2.failed = c.failed ∧
    (alloc_video_tail env c).2.finished = c.finished ∧
    (alloc_video_tail env c).2.header_written = c.header_written ∧
    (alloc_video_tail env c).2.streams.length = c.streams.length ∧
    (∀ i, c.vst = some i →
      ∀ s ∈ (alloc_video_tail env c).2.streams, s.index = i →
        s.time_base = c.timebase) ∧
    (alloc_video_tail env c).2.has_vc = c.has_vc ∧
    (alloc_video_tail env c).2.has_ac = c.has_ac := by
  rw [alloc_video_tail]
  simp only [h, Bool.not_true, Bool.false_eq_true, if_false]
  refine ⟨trivial, ?_, ⟨_, rfl, ?_⟩, ?_, ?_, ?_, ?_, ?_, ?_, ?_, ?_, ?_, ?_,
    ?_⟩
  · exact set_stream_tb_vst c c.vst c.timebase
  · rw [prepare_time_base]
    simp [set_stream_tb_timebase]
  · exact set_stream_tb_timebase c c.vst c.timebase
  · exact set_stream_tb_vst c c.vst c.timebase
  · exact set_stream_tb_ast c c.vst c.timebase
  · exact set_stream_tb_acc c c.vst c.timebase
  · exact set_stream_tb_failed c c.vst c.timebase
  · exact set_stream_tb_finished c c.vst c.timebase
  · exact set_stream_tb_header c c.vst c.timebase
  · exact set_stream_tb_len c c.vst c.timebase
  · intro i hi s hs hidx
    rw [hi] at hs
    exact set_stream_tb_mem c i c.timebase s hs hidx
  · rw [set_stream_tb_has_vc]
    exact h
  · exact set_stream_tb_has_ac c c.vst c.timebase

/-- Audio analogue of `alloc_video_tail_success`. -/
theorem alloc_audio_tail_success (env : AllocEnv) (c : EncCtx)
    (h : c.has_ac = true) :
    (alloc_audio_tail env c).1.1 = 0 ∧
    (alloc_audio_tail env c).1.2.1 = c.ast ∧
    (∃ cc, (alloc_audio_tail env c).1.2.2 = some cc ∧
      cc.time_base = c.timebase) ∧
    (alloc_audio_tail env c).2.timebase = c.timebase ∧
    (alloc_audio_tail env c).2.vst = c.vst ∧
    (alloc_audio_tail env c).2.ast = c.ast ∧
    (alloc_audio_tail env c).2.vcc = c.vcc ∧
    (alloc_audio_tail env c).2.failed = c.failed ∧
    (alloc_audio_tail env c).2.finished = c.finished ∧
    (alloc_audio_tail env c).2.header_written = c.header_written ∧
    (alloc_audio_tail env c).2.streams.length = c.streams.length ∧
    (∀ i, c.ast = some i →
      ∀ s ∈ (alloc_audio_tail env c).2.streams, s.index = i →
        s.time_base = c.timebase) ∧
    (alloc_audio_tail env c).2.has_vc = c.has_vc ∧
    (alloc_audio_tail env c).2.has_ac = c.has_ac := by
  rw [alloc_audio_tail]
  simp only [h, Bool.not_true, Bool.false_eq_true, if_false]
  refine ⟨trivial, ?_, ⟨_, rfl, ?_⟩, ?_, ?_, ?_, ?_, ?_, ?_, ?_, ?_, ?_, ?_,
    ?_⟩
  · exact set_stream_tb_ast c c.ast c.timebase
  · rw [prepare_time_base]
    simp [set_stream_tb_timebase]
  · exact set_stream_tb_timebase c c.ast c.timebase
  · exact set_stream_tb_vst c c.ast c.timebase
  · exact set_stream_tb_ast c c.ast c.timebase
  · exact set_stream_tb_vcc c c.ast c.timebase
  · exact set_stream_tb_failed c c.ast c.timebase
  · exact set_stream_tb_finished c c.ast c.timebase
  · exact set_stream_tb_header c c.ast c.timebase
  · exact set_stream_tb_len c c.ast c.timebase
  · intro i hi s hs hidx
    rw [hi] at hs
    exact set_stream_tb_mem c i c.timebase s hs hidx
  · exact set_stream_tb_has_vc c c.ast c.timebase
  · rw [set_stream_tb_has_ac]
    exact h

/-- The two failure exits of the video tail when the encoder is absent
both preserve the timebase. -/
theorem alloc_video_tail_timebase (env : AllocEnv) (c : EncCtx) :
    (alloc_video_tail env c).2.timebase = c.timebase := by
  by_cases h : c.has_vc = true
  · exact (alloc_video_tail_success env c h).2.2.2.1
  · rw [alloc_video_tail]
    simp only [h]
    simp only [Bool.not_eq_true] at h
    simp [h, fail_timebase]
    split_ifs <;> simp [fail_timebase]

theorem alloc_audio_tail_timebase (env : AllocEnv) (c : EncCtx) :
    (alloc_audio_tail env c).2.timebase = c.timebase := by
  by_cases h : c.has_ac = true
  · exact (alloc_audio_tail_success env c h).2.2.2.1
  · rw [alloc_audio_tail]
    simp only [h]
    simp only [Bool.not_eq_true] at h
    simp [h, fail_timebase]
    split_ifs <;> simp [fail_timebase]

/-- With no video encoder the video tail reports failure. -/
theorem alloc_video_tail_fail (env : AllocEnv) (c : EncCtx)
    (h : c.has_vc = false) : (alloc_video_tail env c).1.1 = -1 := by
  rw [alloc_video_tail]
  simp only [h, Bool.not_false, if_true]
  split_ifs <;> rfl

/-- With no audio encoder the audio tail reports failure. -/
theorem alloc_audio_tail_fail (env : AllocEnv) (c : EncCtx)
    (h : c.has_ac = false) : (alloc_audio_tail env c).1.1 = -1 := by
  rw [alloc_audio_tail]
  simp only [h, Bool.not_false, if_true]
  split_ifs <;> rfl

theorem prealloc_timebase (c : EncCtx) (mt : MediaType) :
    (alloc_prealloc c mt).timebase = c.timebase := by
  rw [alloc_prealloc]
  split_ifs <;> simp [avformat_new_stream]

theorem prealloc_has_vc (c : EncCtx) (mt : MediaType) :
    (alloc_prealloc c mt).has_vc = c.has_vc := by
  rw [alloc_prealloc]
  split_ifs <;> simp [avformat_new_stream]

theorem prealloc_has_ac (c : EncCtx) (mt : MediaType) :
    (alloc_prealloc c mt).has_ac = c.has_ac := by
  rw [alloc_prealloc]
  split_ifs <;> simp [avformat_new_stream]

theorem ensure_vst_timebase (c : EncCtx) :
    (alloc_ensure_vst c).timebase = c.timebase := by
  rw [alloc_ensure_vst]
  split_ifs <;> simp [avformat_new_stream]

theorem ensure_ast_timebase (c : EncCtx) :
    (alloc_ensure_ast c).timebase = c.timebase := by
  rw [alloc_ensure_ast]
  split_ifs <;> simp [avformat_new_stream]

theorem ensure_vst_has_vc (c : EncCtx) :
    (alloc_ensure_vst c).has_vc = c.has_vc := by
  rw [alloc_ensure_vst]
  split_ifs <;> simp [avformat_new_stream]

theorem ensure_ast_has_ac (c : EncCtx) :
    (alloc_ensure_ast c).has_ac = c.has_ac := by
  rw [alloc_ensure_ast]
  split_ifs <;> simp [avformat_new_stream]

theorem ensure_vst_isSome (c : EncCtx) :
    ∃ i, (alloc_ensure_vst c).vst = some i := by
  rw [alloc_ensure_vst]
  split_ifs with h
  · exact ⟨(avformat_new_stream c MediaType.unknown).1, by simp⟩
  · rcases hv : c.vst with _ | j
    · rw [hv] at h
      simp at h
    · exact ⟨j, rfl⟩

theorem ensure_ast_isSome (c : EncCtx) :
    ∃ i, (alloc_ensure_ast c).ast = some i := by
  rw [alloc_ensure_ast]
  split_ifs with h
  · exact ⟨(avformat_new_stream c MediaType.unknown).1, by simp⟩
  · rcases hv : c.ast with _ | j
    · rw [hv] at h
      simp at h
    · exact ⟨j, rfl⟩

theorem negotiate_vst (env : AllocEnv) (c : EncCtx) :
    (negotiate_timebase env c).vst = c.vst := by
  rw [negotiate_timebase]
  split_ifs <;> rfl

theorem negotiate_ast (env : AllocEnv) (c : EncCtx) :
    (negotiate_timebase env c).ast = c.ast := by
  rw [negotiate_timebase]
  split_ifs <;> rfl

theorem negotiate_has_vc (env : AllocEnv) (c : EncCtx) :
    (negotiate_timebase env c).has_vc = c.has_vc := by
  rw [negotiate_timebase]
  split_ifs <;> rfl

theorem negotiate_has_ac (env : AllocEnv) (c : EncCtx) :
    (negotiate_timebase env c).has_ac = c.has_ac := by
  rw [negotiate_timebase]
  split_ifs <;> rfl

/-- Part 1 of C4 (amended): once the timebase denominator is non-zero, no
`allocStream` call, successful or not, modifies the shared timebase. -/
theorem alloc_preserves_timebase (env : AllocEnv) (ctx : EncCtx)
    (mt : MediaType) (hden : ctx.timebase.den ≠ 0) :
    (encode_lavc_alloc_stream env ctx mt).2.timebase = ctx.timebase := by
  rw [encode_lavc_alloc_stream]
  by_cases hcf : check_fail ctx = true
  · simp [hcf]
  · by_cases hhw : ctx.header_written ≠ 0
    · simp [hcf, hhw]
    · have hden1 :
        (alloc_ensure_vst (alloc_prealloc ctx mt)).timebase.den ≠ 0 := by
        rw [ensure_vst_timebase, prealloc_timebase]
        exact hden
      have hden2 :
        (alloc_ensure_ast (alloc_prealloc ctx mt)).timebase.den ≠ 0 := by
        rw [ensure_ast_timebase, prealloc_timebase]
        exact hden
      cases mt with
      | video =>
        simp only [hcf, hhw, Bool.false_eq_true, if_false, ite_not]
        split_ifs with hvcc
        · simp [prealloc_timebase]
        · rw [alloc_video_tail_timebase, negotiate_fixed env _ hden1,
            ensure_vst_timebase, prealloc_timebase]
      | audio =>
        simp only [hcf, hhw, Bool.false_eq_true, if_false, ite_not]
        split_ifs with hacc
        · simp [prealloc_timebase]
        · rw [alloc_audio_tail_timebase, negotiate_fixed env _ hden2,
            ensure_ast_timebase, prealloc_timebase]
      | unknown =>
        simp only [hcf, hhw, Bool.false_eq_true, if_false, ite_not]
        rw [fail_timebase, prealloc_timebase]

/-- Part 2 of C4: a successful `allocStream` returns the slot's stream
index and codec context, the codec context carries the session timebase,
and every container stream with that index carries it as well. -/
theorem alloc_success_assigns (env : AllocEnv) (ctx : EncCtx)
    (mt : MediaType)
    (hret : (encode_lavc_alloc_stream env ctx mt).1.1 = 0) :
    ∃ i cc, (encode_lavc_alloc_stream env ctx mt).1.2.1 = some i ∧
      (encode_lavc_alloc_stream env ctx mt).1.2.2 = some cc ∧
      cc.time_base = (encode_lavc_alloc_stream env ctx mt).2.timebase ∧
      ∀ s ∈ (encode_lavc_alloc_stream env ctx mt).2.streams, s.index = i →
        s.time_base = (encode_lavc_alloc_stream env ctx mt).2.timebase := by
  rw [encode_lavc_alloc_stream] at hret ⊢
  by_cases hcf : check_fail ctx = true
  · simp [hcf] at hret
  · by_cases hhw : ctx.header_written ≠ 0
    · simp [hcf, hhw] at hret
    · cases mt with
      | video =>
        simp only [hcf, hhw, Bool.false_eq_true, if_false, ite_not] at hret ⊢
        split_ifs at hret ⊢ with hvcc
        · simp at hret
        · by_cases hvc :
            (negotiate_timebase env
              (alloc_ensure_vst (alloc_prealloc ctx MediaType.video))).has_vc
              = true
          · obtain ⟨h0, h1, ⟨cc, hcc, hcctb⟩, htb, hvstp, hastp, haccp, hfp,
              hfinp, hhp, hlenp, hmem, hhvc, hhac⟩ :=
              alloc_video_tail_success env _ hvc
            obtain ⟨i, hi⟩ :=
              ensure_vst_isSome (alloc_prealloc ctx MediaType.video)
            have hvsti :
              (negotiate_timebase env
                (alloc_ensure_vst (alloc_prealloc ctx MediaType.video))).vst =
                some i := by
              rw [negotiate_vst]
              exact hi
            refine ⟨i, cc, ?_, hcc, ?_, ?_⟩
            · rw [h1, hvsti]
            · rw [hcctb, htb]
            · intro s hs hidx
              rw [htb]
              exact hmem i hvsti s hs hidx
          · exfalso
            rw [alloc_video_tail_fail env _ (by
              revert hvc
              cases hb :
                (negotiate_timebase env
                  (alloc_ensure_vst (alloc_prealloc ctx
                    MediaType.video))).has_vc <;> simp [hb])] at hret
            exact absurd hret (by decide)
      | audio =>
        simp only [hcf, hhw, Bool.false_eq_true, if_false, ite_not] at hret ⊢
        split_ifs at hret ⊢ with hacc
        · simp at hret
        · by_cases hac :
            (negotiate_timebase env
              (alloc_ensure_ast (alloc_prealloc ctx MediaType.audio))).has_ac
              = true
          · obtain ⟨h0, h1, ⟨cc, hcc, hcctb⟩, htb, hvstp, hastp, hvccp, hfp,
              hfinp, hhp, hlenp, hmem, hhvc, hhac⟩ :=
              alloc_audio_tail_success env _ hac
            obtain ⟨i, hi⟩ :=
              ensure_ast_isSome (alloc_prealloc ctx MediaType.audio)
            have hasti :
              (negotiate_timebase env
                (alloc_ensure_ast (alloc_prealloc ctx MediaType.audio))).ast =
                some i := by
              rw [negotiate_ast]
              exact hi
            refine ⟨i, cc, ?_, hcc, ?_, ?_⟩
            · rw [h1, hasti]
            · rw [hcctb, htb]
            · intro s hs hidx
              rw [htb]
              exact hmem i hasti s hs hidx
          · exfalso
            rw [alloc_audio_tail_fail env _ (by
              revert hac
              cases hb :
                (negotiate_timebase env
                  (alloc_ensure_ast (alloc_prealloc ctx
                    MediaType.audio))).has_ac <;> simp [hb])] at hret
            exact absurd hret (by decide)
      | unknown =>
        simp only [hcf, hhw, Bool.false_eq_true, if_false, ite_not] at hret
        exact absurd hret (by decide)

theorem prealloc_acc (c : EncCtx) (mt : MediaType) :
    (alloc_prealloc c mt).acc = c.acc := by
  rw [alloc_prealloc]
  split_ifs <;> simp [avformat_new_stream]

theorem prealloc_vcc (c : EncCtx) (mt : MediaType) :
    (alloc_prealloc c mt).vcc = c.vcc := by
  rw [alloc_prealloc]
  split_ifs <;> simp [avformat_new_stream]

theorem prealloc_skip (c : EncCtx) (mt : MediaType)
    (h : c.streams.length ≠ 0) : alloc_prealloc c mt = c := by
  rw [alloc_prealloc]
  simp [h]

theorem ensure_vst_of_some (c : EncCtx) (i : Nat) (h : c.vst = some i) :
    alloc_ensure_vst c = c := by
  rw [alloc_ensure_vst]
  simp [h]

theorem ensure_ast_of_some (c : EncCtx) (i : Nat) (h : c.ast = some i) :
    alloc_ensure_ast c = c := by
  rw [alloc_ensure_ast]
  simp [h]

theorem negotiate_failed (env : AllocEnv) (c : EncCtx) :
    (negotiate_timebase env c).failed = c.failed := by
  rw [negotiate_timebase]
  split_ifs <;> rfl

theorem negotiate_finished (env : AllocEnv) (c : EncCtx) :
    (negotiate_timebase env c).finished = c.finished := by
  rw [negotiate_timebase]
  split_ifs <;> rfl

theorem negotiate_header (env : AllocEnv) (c : EncCtx) :
    (negotiate_timebase env c).header_written = c.header_written := by
  rw [negotiate_timebase]
  split_ifs <;> rfl

theorem negotiate_vcc (env : AllocEnv) (c : EncCtx) :
    (negotiate_timebase env c).vcc = c.vcc := by
  rw [negotiate_timebase]
  split_ifs <;> rfl

theorem negotiate_acc (env : AllocEnv) (c : EncCtx) :
    (negotiate_timebase env c).acc = c.acc := by
  rw [negotiate_timebase]
  split_ifs <;> rfl

theorem negotiate_streams (env : AllocEnv) (c : EncCtx) :
    (negotiate_timebase env c).streams = c.streams := by
  rw [negotiate_timebase]
  split_ifs <;> rfl

/-- Claim C4, amended: the shared timebase is set at most once — the
first `allocStream` call that reaches timebase negotiation fixes it (that
call may itself still fail if its encoder is missing, see the
counterexample), after which no `allocStream` call modifies it; and every
successful `allocStream` hands out a codec context carrying the shared
timebase and gives the slot's container stream (every stream with the
returned index) that same timebase. -/
theorem timebase_first_writer_wins (env : AllocEnv) (ctx : EncCtx)
    (mt : MediaType) :
    (ctx.timebase.den ≠ 0 →
      (encode_lavc_alloc_stream env ctx mt).2.timebase = ctx.timebase) ∧
    ((encode_lavc_alloc_stream env ctx mt).1.1 = 0 →
      ∃ i cc, (encode_lavc_alloc_stream env ctx mt).1.2.1 = some i ∧
        (encode_lavc_alloc_stream env ctx mt).1.2.2 = some cc ∧
        cc.time_base = (encode_lavc_alloc_stream env ctx mt).2.timebase ∧
        ∀ s ∈ (encode_lavc_alloc_stream env ctx mt).2.streams, s.index = i →
          s.time_base = (encode_lavc_alloc_stream env ctx mt).2.timebase) :=
  ⟨fun h => alloc_preserves_timebase env ctx mt h,
   fun h => alloc_success_assigns env ctx mt h⟩

/-- A fresh session whose timebase has already been fixed to 1/24000. -/
def ctxTimebaseSet : EncCtx := { baseCtx with timebase := ⟨1, 24000⟩ }

/-- Witness for the amended C4 at a concrete session with a fixed
timebase and a successful audio allocation. -/
theorem timebase_first_writer_wins_witness :
    (ctxTimebaseSet.timebase.den ≠ 0 ∧
      (encode_lavc_alloc_stream baseAllocEnv ctxTimebaseSet
        MediaType.audio).2.timebase = ctxTimebaseSet.timebase) ∧
    ((encode_lavc_alloc_stream baseAllocEnv ctxTimebaseSet
        MediaType.audio).1.1 = 0 ∧
      ∃ i cc, (encode_lavc_alloc_stream baseAllocEnv ctxTimebaseSet
          MediaType.audio).1.2.1 = some i ∧
        (encode_lavc_alloc_stream baseAllocEnv ctxTimebaseSet
          MediaType.audio).1.2.2 = some cc ∧
        cc.time_base = (encode_lavc_alloc_stream baseAllocEnv ctxTimebaseSet
          MediaType.audio).2.timebase ∧
        ∀ s ∈ (encode_lavc_alloc_stream baseAllocEnv ctxTimebaseSet
            MediaType.audio).2.streams, s.index = i →
          s.time_base = (encode_lavc_alloc_stream baseAllocEnv ctxTimebaseSet
            MediaType.audio).2.timebase) :=
  ⟨⟨by decide,
    (timebase_first_writer_wins baseAllocEnv ctxTimebaseSet
      MediaType.audio).1 (by decide)⟩,
   ⟨rfl,
    (timebase_first_writer_wins baseAllocEnv ctxTimebaseSet
      MediaType.audio).2 rfl⟩⟩

/-- A fresh session whose video encoder could not be resolved (audio-only
output, format with no default video codec, no `--ovc` request). -/
def ctxNoVideoEncoder : EncCtx := { baseCtx with has_vc := false }

/-- Counterexample to C4 as stated: the FIRST `allocStream` call on this
session fails (returns -1, no video encoder), yet it is this failed call
that sets the shared timebase — so the timebase is not "set by the first
successful allocStream call". -/
theorem timebase_first_writer_wins_counterexample :
    ctxNoVideoEncoder.timebase.den = 0 ∧
    (encode_lavc_alloc_stream baseAllocEnv ctxNoVideoEncoder
      MediaType.video).1.1 = -1 ∧
    (encode_lavc_alloc_stream baseAllocEnv ctxNoVideoEncoder
      MediaType.video).2.timebase = ⟨1, 24000⟩ ∧
    (encode_lavc_alloc_stream baseAllocEnv ctxNoVideoEncoder
      MediaType.video).2.failed = false :=
  ⟨rfl, rfl, rfl, rfl⟩

/-- Audio-then-video allocation on a fresh `video_first` session: the
audio call succeeds with container stream index 1, the later video call
succeeds with index 0 (the placeholder reserved for it). -/
theorem video_first_order_aux (envA envV : AllocEnv) (ctx : EncCtx)
    (hf : ctx.failed = false) (hfin : ctx.finished = false)
    (hhw : ctx.header_written = 0) (hstreams : ctx.streams = [])
    (hvst : ctx.vst = none) (hast : ctx.ast = none)
    (hvcc : ctx.vcc = none) (hacc : ctx.acc = none)
    (hvc : ctx.has_vc = true) (hac : ctx.has_ac = true)
    (hvf : ctx.video_first = true) :
    (encode_lavc_alloc_stream envA ctx MediaType.audio).1.1 = 0 ∧
    (encode_lavc_alloc_stream envA ctx MediaType.audio).1.2.1 = some 1 ∧
    (encode_lavc_alloc_stream envV
        (encode_lavc_alloc_stream envA ctx MediaType.audio).2
        MediaType.video).1.1 = 0 ∧
    (encode_lavc_alloc_stream envV
        (encode_lavc_alloc_stream envA ctx MediaType.audio).2
        MediaType.video).1.2.1 = some 0 := by
  have hchk : check_fail ctx = false := by
    simp [check_fail, hf, hfin]
  have hc1 : alloc_prealloc ctx MediaType.audio =
      { ctx with
        streams := [{ index := 0, time_base := ⟨0, 0⟩,
                      codec_type := MediaType.unknown }],
        vst := some 0 } := by
    rw [alloc_prealloc]
    simp [hstreams, hvf, avformat_new_stream]
  have hc2 : alloc_ensure_ast (alloc_prealloc ctx MediaType.audio) =
      { ctx with
        streams := [{ index := 0, time_base := ⟨0, 0⟩,
                      codec_type := MediaType.unknown },
                    { index := 1, time_base := ⟨0, 0⟩,
                      codec_type := MediaType.unknown }],
        vst := some 0, ast := some 1 } := by
    rw [hc1, alloc_ensure_ast]
    simp [hast, avformat_new_stream]
  have e1 : encode_lavc_alloc_stream envA ctx MediaType.audio =
      alloc_audio_tail envA (negotiate_timebase envA
        (alloc_ensure_ast (alloc_prealloc ctx MediaType.audio))) := by
    rw [encode_lavc_alloc_stream]
    simp [hchk, hhw, prealloc_acc, hacc]
  have hacC : (negotiate_timebase envA
      (alloc_ensure_ast (alloc_prealloc ctx MediaType.audio))).has_ac =
      true := by
    rw [negotiate_has_ac, hc2]
    exact hac
  obtain ⟨hr1, hso1, hccE, htb1, hvstp, hastp, hvccp, hfp, hfinp, hhp,
    hlenp, hmem1, hhvcp, hhacp⟩ := alloc_audio_tail_success envA _ hacC
  have hr1' : (encode_lavc_alloc_stream envA ctx MediaType.audio).1.1 = 0 := by
    rw [e1]
    exact hr1
  have hso1' : (encode_lavc_alloc_stream envA ctx MediaType.audio).1.2.1 =
      some 1 := by
    rw [e1, hso1, negotiate_ast, hc2]
  have hchk2 : check_fail
      (encode_lavc_alloc_stream envA ctx MediaType.audio).2 = false := by
    rw [check_fail, e1, hfp, hfinp, negotiate_failed, negotiate_finished,
      hc2]
    simp [hf, hfin]
  have hhw2 : (encode_lavc_alloc_stream envA ctx
      MediaType.audio).2.header_written = 0 := by
    rw [e1, hhp, negotiate_header, hc2]
    exact hhw
  have hvcc2 : (encode_lavc_alloc_stream envA ctx
      MediaType.audio).2.vcc = none := by
    rw [e1, hvccp, negotiate_vcc, hc2]
    exact hvcc
  have hvst2 : (encode_lavc_alloc_stream envA ctx
      MediaType.audio).2.vst = some 0 := by
    rw [e1, hvstp, negotiate_vst, hc2]
  have hlen2 : (encode_lavc_alloc_stream envA ctx
      MediaType.audio).2.streams.length = 2 := by
    rw [e1, hlenp, negotiate_streams, hc2]
    rfl
  have hhvc2 : (encode_lavc_alloc_stream envA ctx
      MediaType.audio).2.has_vc = true := by
    rw [e1, hhvcp, negotiate_has_vc, hc2]
    exact hvc
  have hpre2 : alloc_prealloc
      (encode_lavc_alloc_stream envA ctx MediaType.audio).2
      MediaType.video =
      (encode_lavc_alloc_stream envA ctx MediaType.audio).2 :=
    prealloc_skip _ _ (by rw [hlen2]; decide)
  have hens2 : alloc_ensure_vst
      (encode_lavc_alloc_stream envA ctx MediaType.audio).2 =
      (encode_lavc_alloc_stream envA ctx MediaType.audio).2 :=
    ensure_vst_of_some _ 0 hvst2
  have e2 : encode_lavc_alloc_stream envV
      (encode_lavc_alloc_stream envA ctx MediaType.audio).2
      MediaType.video =
      alloc_video_tail envV (negotiate_timebase envV
        (encode_lavc_alloc_stream envA ctx MediaType.audio).2) := by
    rw [encode_lavc_alloc_stream]
    simp [hchk2, hhw2, prealloc_vcc, hvcc2, hpre2, hens2]
  have hvcC2 : (negotiate_timebase envV
      (encode_lavc_alloc_stream envA ctx MediaType.audio).2).has_vc =
      true := by
    rw [negotiate_has_vc]
    exact hhvc2
  obtain ⟨hr2, hso2, hccE2, htb2, hvstp2, hastp2, haccp2, hfp2, hfinp2,
    hhp2, hlenp2, hmem2, hhvcp2, hhacp2⟩ :=
    alloc_video_tail_success envV _ hvcC2
  refine ⟨hr1', hso1', ?_, ?_⟩
  · rw [e2]
    exact hr2
  · rw [e2, hso2, negotiate_vst]
    exact hvst2

/-- Video-then-audio allocation on a fresh `audio_first` session: the
video call succeeds with container stream index 1, the later audio call
succeeds with index 0 (the placeholder reserved for it). -/
theorem audio_first_order_aux (envA envV : AllocEnv) (ctx : EncCtx)
    (hf : ctx.failed = false) (hfin : ctx.finished = false)
    (hhw : ctx.header_written = 0) (hstreams : ctx.streams = [])
    (hvst : ctx.vst = none) (hast : ctx.ast = none)
    (hvcc : ctx.vcc = none) (hacc : ctx.acc = none)
    (hvc : ctx.has_vc = true) (hac : ctx.has_ac = true)
    (haf : ctx.audio_first = true) :
    (encode_lavc_alloc_stream envV ctx MediaType.video).1.1 = 0 ∧
    (encode_lavc_alloc_stream envV ctx MediaType.video).1.2.1 = some 1 ∧
    (encode_lavc_alloc_stream envA
        (encode_lavc_alloc_stream envV ctx MediaType.video).2
        MediaType.audio).1.1 = 0 ∧
    (encode_lavc_alloc_stream envA
        (encode_lavc_alloc_stream envV ctx MediaType.video).2
        MediaType.audio).1.2.1 = some 0 := by
  have hchk : check_fail ctx = false := by
    simp [check_fail, hf, hfin]
  have hc1 : alloc_prealloc ctx MediaType.video =
      { ctx with
        streams := [{ index := 0, time_base := ⟨0, 0⟩,
                      codec_type := MediaType.unknown }],
        ast := some 0 } := by
    rw [alloc_prealloc]
    simp [hstreams, haf, avformat_new_stream]
  have hc2 : alloc_ensure_vst (alloc_prealloc ctx MediaType.video) =
      { ctx with
        streams := [{ index := 0, time_base := ⟨0, 0⟩,
                      codec_type := MediaType.unknown },
                    { index := 1, time_base := ⟨0, 0⟩,
                      codec_type := MediaType.unknown }],
        ast := some 0, vst := some 1 } := by
    rw [hc1, alloc_ensure_vst]
    simp [hvst, avformat_new_stream]
  have e1 : encode_lavc_alloc_stream envV ctx MediaType.video =
      alloc_video_tail envV (negotiate_timebase envV
        (alloc_ensure_vst (alloc_prealloc ctx MediaType.video))) := by
    rw [encode_lavc_alloc_stream]
    simp [hchk, hhw, prealloc_vcc, hvcc]
  have hvcC : (negotiate_timebase envV
      (alloc_ensure_vst (alloc_prealloc ctx MediaType.video))).has_vc =
      true := by
    rw [negotiate_has_vc, hc2]
    exact hvc
  obtain ⟨hr1, hso1, hccE, htb1, hvstp, hastp, haccp, hfp, hfinp, hhp,
    hlenp, hmem1, hhvcp, hhacp⟩ := alloc_video_tail_success envV _ hvcC
  have hr1' : (encode_lavc_alloc_stream envV ctx MediaType.video).1.1 = 0 := by
    rw [e1]
    exact hr1
  have hso1' : (encode_lavc_alloc_stream envV ctx MediaType.video).1.2.1 =
      some 1 := by
    rw [e1, hso1, negotiate_vst, hc2]
  have hchk2 : check_fail
      (encode_lavc_alloc_stream envV ctx MediaType.video).2 = false := by
    rw [check_fail, e1, hfp, hfinp, negotiate_failed, negotiate_finished,
      hc2]
    simp [hf, hfin]
  have hhw2 : (encode_lavc_alloc_stream envV ctx
      MediaType.video).2.header_written = 0 := by
    rw [e1, hhp, negotiate_header, hc2]
    exact hhw
  have hacc2 : (encode_lavc_alloc_stream envV ctx
      MediaType.video).2.acc = none := by
    rw [e1, haccp, negotiate_acc, hc2]
    exact hacc
  have hast2 : (encode_lavc_alloc_stream envV ctx
      MediaType.video).2.ast = some 0 := by
    rw [e1, hastp, negotiate_ast, hc2]
  have hlen2 : (encode_lavc_alloc_stream envV ctx
      MediaType.video).2.streams.length = 2 := by
    rw [e1, hlenp, negotiate_streams, hc2]
    rfl
  have hhac2 : (encode_lavc_alloc_stream envV ctx
      MediaType.video).2.has_ac = true := by
    rw [e1, hhacp, negotiate_has_ac, hc2]
    exact hac
  have hpre2 : alloc_prealloc
      (encode_lavc_alloc_stream envV ctx MediaType.video).2
      MediaType.audio =
      (encode_lavc_alloc_stream envV ctx MediaType.video).2 :=
    prealloc_skip _ _ (by rw [hlen2]; decide)
  have hens2 : alloc_ensure_ast
      (encode_lavc_alloc_stream envV ctx MediaType.video).2 =
      (encode_lavc_alloc_stream envV ctx MediaType.video).2 :=
    ensure_ast_of_some _ 0 hast2
  have e2 : encode_lavc_alloc_stream envA
      (encode_lavc_alloc_stream envV ctx MediaType.video).2
      MediaType.audio =
      alloc_audio_tail envA (negotiate_timebase envA
        (encode_lavc_alloc_stream envV ctx MediaType.video).2) := by
    rw [encode_lavc_alloc_stream]
    simp [hchk2, hhw2, prealloc_acc, hacc2, hpre2, hens2]
  have hacC2 : (negotiate_timebase envA
      (encode_lavc_alloc_stream envV ctx MediaType.video).2).has_ac =
      true := by
    rw [negotiate_has_ac]
    exact hhac2
  obtain ⟨hr2, hso2, hccE2, htb2, hvstp2, hastp2, hvccp2, hfp2, hfinp2,
    hhp2, hlenp2, hmem2, hhvcp2, hhacp2⟩ :=
    alloc_audio_tail_success envA _ hacC2
  refine ⟨hr1', hso1', ?_, ?_⟩
  · rw [e2]
    exact hr2
  · rw [e2, hso2, negotiate_ast]
    exact hast2

/-- Claim C5: on a fresh session with both encoders resolvable, if
`video_first` is configured and `allocStream(audio)` then
`allocStream(video)` are called in that order (both succeed), the video
slot receives container stream index 0 and audio index 1 — so video's
index is strictly lower; symmetrically under `audio_first` for
`allocStream(video)` then `allocStream(audio)`. -/
theorem stream_order_respects_first_flag (envA envV : AllocEnv)
    (ctx : EncCtx)
    (hf : ctx.failed = false) (hfin : ctx.finished = false)
    (hhw : ctx.header_written = 0) (hstreams : ctx.streams = [])
    (hvst : ctx.vst = none) (hast : ctx.ast = none)
    (hvcc : ctx.vcc = none) (hacc : ctx.acc = none)
    (hvc : ctx.has_vc = true) (hac : ctx.has_ac = true) :
    (ctx.video_first = true →
      ∃ ia iv,
        (encode_lavc_alloc_stream envA ctx MediaType.audio).1.1 = 0 ∧
        (encode_lavc_alloc_stream envA ctx MediaType.audio).1.2.1 =
          some ia ∧
        (encode_lavc_alloc_stream envV
            (encode_lavc_alloc_stream envA ctx MediaType.audio).2
            MediaType.video).1.1 = 0 ∧
        (encode_lavc_alloc_stream envV
            (encode_lavc_alloc_stream envA ctx MediaType.audio).2
            MediaType.video).1.2.1 = some iv ∧
        iv < ia) ∧
    (ctx.audio_first = true →
      ∃ iv ia,
        (encode_lavc_alloc_stream envV ctx MediaType.video).1.1 = 0 ∧
        (encode_lavc_alloc_stream envV ctx MediaType.video).1.2.1 =
          some iv ∧
        (encode_lavc_alloc_stream envA
            (encode_lavc_alloc_stream envV ctx MediaType.video).2
            MediaType.audio).1.1 = 0 ∧
        (encode_lavc_alloc_stream envA
            (encode_lavc_alloc_stream envV ctx MediaType.video).2
            MediaType.audio).1.2.1 = some ia ∧
        ia < iv) := by
  constructor
  · intro hvf
    obtain ⟨h1, h2, h3, h4⟩ := video_first_order_aux envA envV ctx hf hfin
      hhw hstreams hvst hast hvcc hacc hvc hac hvf
    exact ⟨1, 0, h1, h2, h3, h4, by decide⟩
  · intro haf
    obtain ⟨h1, h2, h3, h4⟩ := audio_first_order_aux envA envV ctx hf hfin
      hhw hstreams hvst hast hvcc hacc hvc hac haf
    exact ⟨1, 0, h1, h2, h3, h4, by decide⟩

/-- Witness for C5: the concrete fresh `video_first` session. -/
theorem stream_order_respects_first_flag_witness :
    ∃ ia iv,
      (encode_lavc_alloc_stream baseAllocEnv
        { baseCtx with video_first := true } MediaType.audio).1.1 = 0 ∧
      (encode_lavc_alloc_stream baseAllocEnv
        { baseCtx with video_first := true } MediaType.audio).1.2.1 =
        some ia ∧
      (encode_lavc_alloc_stream baseAllocEnv
          (encode_lavc_alloc_stream baseAllocEnv
            { baseCtx with video_first := true } MediaType.audio).2
          MediaType.video).1.1 = 0 ∧
      (encode_lavc_alloc_stream baseAllocEnv
          (encode_lavc_alloc_stream baseAllocEnv
            { baseCtx with video_first := true } MediaType.audio).2
          MediaType.video).1.2.1 = some iv ∧
      iv < ia :=
  (stream_order_respects_first_flag baseAllocEnv baseAllocEnv
    { baseCtx with video_first := true } rfl rfl rfl rfl rfl rfl rfl rfl
    rfl rfl).1 rfl

/-! ### Claim C6: which dictionary drives two-pass preparation -/

/-- A fresh session whose audio codec options request pass-1 encoding
(`--oacopts flags=+pass1`); the video option dictionary is empty. -/
def ctxAudioPass1 : EncCtx :=
  { baseCtx with options := { baseOptions with aopts := [cs "flags=+pass1"] } }

/-- Evaluation of the code at the C6 failing input: `allocStream(audio)`
succeeds and its own option dictionary carries the pass-1 flag, yet the
pass-1 log channel for the audio slot is NOT opened (and the codec is
handed no pass-2 stats either), because `encode_2pass_prepare` reads the
`"flags"` entry from `ctx->voptions` — the video slot's dictionary — for
both slots.  Had the decision been read from the audio slot's own
dictionary (as the spec states and as the flag-stripping on `*dictp`
in the same function intends), the channel would have been opened, since
the environment lets the open succeed. -/
theorem twopass_flag_read_from_video_dict :
    (encode_lavc_alloc_stream baseAllocEnv ctxAudioPass1
      MediaType.audio).1.1 = 0 ∧
    value_has_flag
      ((av_dict_get (encode_lavc_alloc_stream baseAllocEnv ctxAudioPass1
          MediaType.audio).2.aoptions (cs "flags")).getD [])
      (cs "pass1") = true ∧
    (encode_lavc_alloc_stream baseAllocEnv ctxAudioPass1
      MediaType.audio).2.twopass_bytebuffer_a = none ∧
    baseAllocEnv.pass1_open_ok = true ∧
    (encode_2pass_prepare baseAllocEnv
        (encode_lavc_alloc_stream baseAllocEnv ctxAudioPass1
          MediaType.audio).2.aoptions
        (encode_lavc_alloc_stream baseAllocEnv ctxAudioPass1
          MediaType.audio).2.aoptions
        (avcodec_alloc_context3 MediaType.audio) none).2.2 = some [] := by
  refine ⟨rfl, ?_, rfl, rfl, ?_⟩ <;> decide

end EncodeLavc
